import Mathlib

/-!
Verification of the VirusTotal lookup service
(src/virustotal_service/__init__.py, class VirusTotalService).

The embedding models the Python module shallowly:

* JSON values decoded from the VirusTotal API are the inductive `JVal`
  (JSON numbers are modelled as integers; every numeric field the service
  consumes is a count or a code).
* Python dictionary reads are modelled faithfully: `d.get(k, default)`
  substitutes the default only when the key is ABSENT (a stored None is
  returned as is), and raises AttributeError when the receiver is not a
  dict; `d[k]` raises KeyError when the key is absent and TypeError when
  the receiver is not subscriptable by a string.
* Exceptions are the `PyErr` type; effectful service code runs in
  `VTM := EStateM PyErr RunState`, so state written before an exception
  is preserved, exactly as the side effects of the Python code are.
* Network traffic, the CRITs collaborators (pcap ingestion, domain
  upsert, relationship creation, object save) and hashing are external
  to the module; they are modelled by oracles in `Env` plus counters and
  logs in `RunState` that record every collaborator call the module makes.
-/

set_option maxHeartbeats 1000000
set_option maxRecDepth 4000
set_option linter.unusedVariables false

/-- JSON-like Python values as decoded from the VirusTotal API responses. -/
inductive JVal where
  | null : JVal
  | bool : Bool → JVal
  | num : Int → JVal
  | str : String → JVal
  | arr : List JVal → JVal
  | obj : List (String × JVal) → JVal

/-- Python exceptions that the embedded code can raise. -/
inductive PyErr where
  | keyError (k : String)
  | typeError
  | attributeError
  | indexError
  | valueError
deriving DecidableEq

mutual
/-- Python equality (`==`) on JSON values: structural, except that booleans
compare equal to their numeric value, as in Python. Dict comparison is
modelled as ordered association-list comparison (the service only ever
compares scalars). -/
def pyEq : JVal → JVal → Bool
  | .null, .null => true
  | .bool a, .bool b => a == b
  | .bool a, .num b => (if a then (1 : Int) else 0) == b
  | .num a, .bool b => a == (if b then (1 : Int) else 0)
  | .num a, .num b => a == b
  | .str a, .str b => a == b
  | .arr a, .arr b => pyEqL a b
  | .obj a, .obj b => pyEqO a b
  | _, _ => false
def pyEqL : List JVal → List JVal → Bool
  | [], [] => true
  | x :: xs, y :: ys => pyEq x y && pyEqL xs ys
  | _, _ => false
def pyEqO : List (String × JVal) → List (String × JVal) → Bool
  | [], [] => true
  | (k, v) :: xs, (k2, v2) :: ys => k == k2 && pyEq v v2 && pyEqO xs ys
  | _, _ => false
end

/-- Python equality of a JSON value against an integer literal, as in the
source checks `response_code != 1`, `== -2`, `== 0`. -/
def pyEqInt (v : JVal) (n : Int) : Bool := pyEq v (.num n)

/-- Python truthiness of a JSON value. -/
def truthy : JVal → Bool
  | .null => false
  | .bool b => b
  | .num n => n != 0
  | .str s => !s.isEmpty
  | .arr l => !l.isEmpty
  | .obj l => !l.isEmpty

mutual
/-- Python repr of a JSON value (used by `str()` on non-strings). -/
def pyRepr : JVal → String
  | .null => "None"
  | .bool true => "True"
  | .bool false => "False"
  | .num n => toString n
  | .str s => "\x27" ++ s ++ "\x27"
  | .arr l => "[" ++ pyReprL l ++ "]"
  | .obj l => "\x7b" ++ pyReprO l ++ "\x7d"
def pyReprL : List JVal → String
  | [] => ""
  | [x] => pyRepr x
  | x :: xs => pyRepr x ++ ", " ++ pyReprL xs
def pyReprO : List (String × JVal) → String
  | [] => ""
  | [(k, v)] => "\x27" ++ k ++ "\x27: " ++ pyRepr v
  | (k, v) :: xs => "\x27" ++ k ++ "\x27: " ++ pyRepr v ++ ", " ++ pyReprO xs
end

/-- Python `str()` of a JSON value. -/
def pyStr : JVal → String
  | .str s => s
  | v => pyRepr v

/-- A decoded JSON object / Python dict, as an association list in
insertion order (Python dict keys are unique, first binding wins). -/
abbrev PyDict := List (String × JVal)

/-- A Report is the decoded top-level JSON response of the API. -/
abbrev Report := PyDict

/-- A service configuration dict. -/
abbrev Config := PyDict

/-- The `d.get(k, default)` on a dict: the default is used only when the key
is absent (a stored null is returned as stored). -/
def rget (d : PyDict) (k : String) (dflt : JVal) : JVal :=
  match d.lookup k with
  | some v => v
  | none => dflt

/-- The `d[k]` on a dict: KeyError when absent. -/
def getItemL (d : PyDict) (k : String) : Except PyErr JVal :=
  match d.lookup k with
  | some v => .ok v
  | none => .error (.keyError k)

/-- The `v.get(k, default)` on an arbitrary value: AttributeError unless the
receiver is a dict. -/
def pyGet (v : JVal) (k : String) (dflt : JVal) : Except PyErr JVal :=
  match v with
  | .obj l => .ok (rget l k dflt)
  | _ => .error .attributeError

/-- The `v[k]` with a string key on an arbitrary value: KeyError when a dict
misses the key, TypeError when the receiver is not a dict (string keys do
not subscript lists or scalars). -/
def getItemD (v : JVal) (k : String) : Except PyErr JVal :=
  match v with
  | .obj l => getItemL l k
  | _ => .error .typeError

/-- The `for x in v`: lists yield their elements, dicts their keys, strings
their characters, everything else raises TypeError. -/
def pyIter : JVal → Except PyErr (List JVal)
  | .arr l => .ok l
  | .obj l => .ok (l.map fun p => .str p.1)
  | .str s => .ok (s.data.map fun c => .str c.toString)
  | _ => .error .typeError

/-- The `"%d" % v`: integers and booleans format, everything else raises
TypeError (floats are outside the integer value model). -/
def pyFmtD : JVal → Except PyErr String
  | .num n => .ok (toString n)
  | .bool true => .ok "1"
  | .bool false => .ok "0"
  | _ => .error .typeError

/-- The `int(v)`. -/
def pyInt : JVal → Except PyErr Int
  | .num n => .ok n
  | .bool b => .ok (if b then 1 else 0)
  | .str s =>
    match s.trim.toInt? with
    | some n => .ok n
    | none => .error .valueError
  | _ => .error .typeError

/-- String concatenation `s + v`: TypeError unless `v` is a string. -/
def pyAddStr : JVal → Except PyErr String
  | .str s => .ok s
  | _ => .error .typeError

/-- The `v[0]`: first element of a list or string; a dict with string keys
subscripted by the int 0 raises KeyError; scalars raise TypeError. -/
def pyIndex0 : JVal → Except PyErr JVal
  | .arr [] => .error .indexError
  | .arr (x :: _) => .ok x
  | .str s =>
    match s.data with
    | [] => .error .indexError
    | c :: _ => .ok (.str c.toString)
  | .obj _ => .error (.keyError "0")
  | _ => .error .typeError

/-- One normalized output record, as produced by `self._add_result(title,
label, detail)`; calls without a third argument store a null detail. -/
structure Finding where
  title : String
  label : JVal
  detail : JVal

/-- The indicator kinds the service supports (`supported_types`). -/
inductive CritsType where
  | Sample
  | Domain
  | IP

/-- The CRITs top-level object the service runs on. Only the fields the
module touches are named; `otherFields` stands for every remaining field
of the host object and witnesses that the service leaves them alone. -/
structure CritsObj where
  crits_type : CritsType
  md5 : String
  domain : String
  ip : String
  sha1 : JVal
  sha256 : JVal
  filename : String
  source : String
  id : String
  otherFields : String

/-- A relationship request issued to a domain handle
(`dmain.add_relationship(...)`). -/
structure RelRecord where
  domain : String
  rel_type : String
  rel_date : JVal
  rel_reason : String

/-- Outcome a CRITs collaborator reports (`{success, message}`). -/
structure CollabResult where
  success : Bool
  message : String

/-- Response of the pcap download endpoint, keyed by content type. -/
inductive PcapResp where
  | cap (content : List Nat)
  | json
  | other
  | netError (msg : String)

/-- External world: the network and the CRITs collaborators, as oracles.
`fetchOracle n` is the decoded body of the (n+1)-st report request of the
run (`none` models a connection error or an undecodable body, which
`_get_sample_data` turns into `False`). -/
structure Env where
  fetchOracle : Nat → Option Report
  uploadResp : Report
  pcapResp : PcapResp
  md5hex : List Nat → String
  upsertOracle : JVal → CollabResult
  relOracle : RelRecord → CollabResult

/-- Observable state of one service run: the result log written through
`_add_result`, the info/warning/error messages, and counters or logs for
every externally visible call the module makes. -/
structure RunState where
  obj : CritsObj
  results : List Finding
  infoLog : List String
  warnLog : List String
  errLog : List String
  notifyCount : Nat
  sleeps : List Int
  fetchCount : Nat
  uploadCalls : Nat
  objSaves : Nat
  pcapFetches : Nat
  pcapsAdded : List String
  domainUpserts : List String
  relsAdded : List RelRecord
  domainSaves : Nat

/-- Initial state of a run on a given object. -/
def initState (obj : CritsObj) : RunState :=
  ⟨obj, [], [], [], [], 0, [], 0, 0, 0, 0, [], [], [], 0⟩

/-- The service monad: Python exceptions over mutable run state. State
written before an exception is kept, as the Python side effects are. -/
abbrev VTM (α : Type) := EStateM PyErr RunState α

/-- Lift a fallible pure computation (a possibly raising expression). -/
def liftE {α : Type} : Except PyErr α → VTM α
  | .ok a => fun s => .ok a s
  | .error e => fun s => .error e s

def getSt : VTM RunState := fun s => .ok s s

def setSt (s : RunState) : VTM Unit := fun _ => .ok () s

def modifySt (f : RunState → RunState) : VTM Unit := fun s => .ok () (f s)

/-- The `self._add_result(title, label, detail)`: append one Finding. -/
def _add_result (title : String) (label : JVal) (detail : JVal) : VTM Unit :=
  modifySt fun s => { s with results := s.results ++ [⟨title, label, detail⟩] }

def _info (m : String) : VTM Unit :=
  modifySt fun s => { s with infoLog := s.infoLog ++ [m] }

def _warning (m : String) : VTM Unit :=
  modifySt fun s => { s with warnLog := s.warnLog ++ [m] }

def _error (m : String) : VTM Unit :=
  modifySt fun s => { s with errLog := s.errLog ++ [m] }

def _notify : VTM Unit :=
  modifySt fun s => { s with notifyCount := s.notifyCount + 1 }

/-- The `time.sleep(secs)`, recorded. -/
def _sleep (secs : Int) : VTM Unit :=
  modifySt fun s => { s with sleeps := s.sleeps ++ [secs] }

/-- The `{success, message}` dict the processing helpers return (the
public sample helper additionally carries a scandate). -/
structure PMsg where
  success : Bool
  message : String

/-- Result of `_process_public_sample`: status plus the stored scandate. -/
structure PubStatus where
  success : Bool
  message : String
  scandate : JVal

/-- Shared tail of every processing helper: success with the fixed
message when no section message accumulated, otherwise failure with the
messages joined by newlines. -/
def mkPMsg (msgs : List String) (okMsg : String) : PMsg :=
  if msgs.isEmpty then ⟨true, okMsg⟩ else ⟨false, String.intercalate "\n" msgs⟩

/-! ### `bind_runtime_form` (configuration defaulting, lines 44-55) -/

/-- The `config.setdefault`-style defaulting used by `bind_runtime_form`. -/
def setDefault (config : PyDict) (k : String) (v : JVal) : PyDict :=
  match config.lookup k with
  | some _ => config
  | none => config ++ [(k, v)]

/-- Dict assignment `config[k] = v`. -/
def setKey : PyDict → String → JVal → PyDict
  | [], k, v => [(k, v)]
  | (k2, v2) :: rest, k, v =>
    if k2 == k then (k, v) :: rest else (k2, v2) :: setKey rest k v

/-- The config-dict transformation performed by
`VirusTotalService.bind_runtime_form` before the Django form is built
(the form construction itself lives outside this module): the three
booleans default to False when absent, and `vt_wait_for_processing` is
replaced by `str(config[vt_wait_for_processing][0])`. -/
def bind_runtime_form_config (config : PyDict) : Except PyErr PyDict := do
  let config := setDefault config "vt_add_pcap" (.bool false)
  let config := setDefault config "vt_add_domains" (.bool false)
  let config := setDefault config "vt_upload_unknown_sample" (.bool false)
  let w ← getItemL config "vt_wait_for_processing"
  let w0 ← pyIndex0 w
  pure (setKey config "vt_wait_for_processing" (.str (pyStr w0)))

/-! ### Network helpers (`_get_sample_data`, `_upload_sample`, `get_pcap`) -/

/-- The `_get_sample_data` (lines 253-289). The per-kind URL and parameter
selection only shapes the outbound request, which the fetch oracle
absorbs; a connection error or an undecodable body is oracle `none`
(the Python function returns False). -/
def _get_sample_data (env : Env) : VTM (Option Report) := fun st =>
  .ok (env.fetchOracle st.fetchCount) { st with fetchCount := st.fetchCount + 1 }

/-- Truthiness of the value `_get_sample_data` returned: False and an
empty dict are both falsy. -/
def truthyResp : Option Report → Bool
  | none => false
  | some d => !d.isEmpty

/-- The `_upload_sample` (lines 292-326). Sample and Domain kinds POST the
submission (counted in `uploadCalls`) and check the decoded response; any
other kind logs an error and returns False without posting. On a
non-ready submission response the error message concatenates
`upload_response[verbose_msg]`, which raises KeyError when absent and
TypeError when not a string. -/
def _upload_sample (env : Env) : VTM Bool := do
  let st ← getSt
  match st.obj.crits_type with
  | .IP => do
    _error "Exiting because Virustotal did not know the sample AND we currently cant upload this type of sample!"
    pure false
  | _ => do
    modifySt fun s => { s with uploadCalls := s.uploadCalls + 1 }
    let upload_response := env.uploadResp
    if pyEqInt (rget upload_response "response_code" (.num 0)) 1 = false then do
      let vm ← liftE (getItemL upload_response "verbose_msg")
      let tail ← liftE (pyAddStr vm)
      _error ("Exiting because Virustotal did not know the sample AND we couldn\x27t upload it. Msg.: " ++ tail)
      pure false
    else
      pure true

/-- The `get_pcap` (lines 109-140), with the HTTP exchange as an oracle. -/
def get_pcap (env : Env) (m : String) : VTM (Option (List Nat)) := do
  modifySt fun s => { s with pcapFetches := s.pcapFetches + 1 }
  match env.pcapResp with
  | .netError e => do
    _error ("Network connection error checking virustotal for PCAP (" ++ e ++ ")")
    pure none
  | .cap c => do
    _info ("Gathered PCAP file for " ++ m)
    pure (some c)
  | .json => do
    _warning ("Could not fetch PCAP for hash " ++ m)
    pure none
  | .other => do
    _warning "Could not fetch PCAP for unknown reasons"
    pure none

/-! ### `_process_hashes` (lines 329-353) -/

/-- The `_process_hashes`: backfill `sha1`/`sha256` on the object from the
report and save once when either changed. The report fields are read with
direct subscripts, so an absent `sha1` or `sha256` raises KeyError. -/
def _process_hashes (report : Report) : VTM Unit := do
  let s1 ← liftE (getItemL report "sha1")
  let st1 ← getSt
  let save1 ←
    if pyEq st1.obj.sha1 s1 = false then do
      setSt { st1 with obj := { st1.obj with sha1 := s1 } }
      pure true
    else
      pure false
  let s2 ← liftE (getItemL report "sha256")
  let st2 ← getSt
  let save2 ←
    if pyEq st2.obj.sha256 s2 = false then do
      setSt { st2 with obj := { st2.obj with sha256 := s2 } }
      pure true
    else
      pure false
  if save1 || save2 then
    modifySt fun s => { s with objSaves := s.objSaves + 1 }
  else
    pure ()

/-! ### `_process_public_sample` (lines 355-413) -/

/-- Loop body of the av-scan section: for each engine key the entry is
subscripted for `result` (KeyError when absent, TypeError when the entry
is not a dict) and the remaining fields are read with defaults. -/
def avScanLoop (scans : JVal) : List String → VTM Unit
  | [] => pure ()
  | k :: rest => do
    let entry ← liftE (getItemD scans k)
    let res ← liftE (getItemD entry "result")
    let result := if truthy res then res else .str ""
    let date ← liftE (pyGet entry "update" (.str ""))
    let detected ← liftE (pyGet entry "detected" (.str ""))
    let version ← liftE (pyGet entry "version" (.str ""))
    _add_result "av result" result
      (.obj [("engine", .str k), ("date", date), ("detected", detected),
             ("version", version)])
    avScanLoop scans rest

/-- The `for scan in scans: scans[scan][...]`: dicts iterate their keys and
are re-subscripted; iterating and string-subscripting any other truthy
value raises TypeError (the list case can only raise in Python as well,
modulo contrived integer-element lists). -/
def scanSection (scans : JVal) : VTM Unit :=
  match scans with
  | .obj l => avScanLoop scans (l.map Prod.fst)
  | _ => liftE (.error .typeError)

/-- The av-scan section (lines 388-404): process a truthy `scans` value,
soft-fail by name otherwise. -/
def scansSectionMsgs (scans : JVal) (msgs0 : List String) : VTM (List String) :=
  if truthy scans then do
    scanSection scans
    pure msgs0
  else
    pure (msgs0 ++ ["Scan data not included in VT response."])

/-- Lines 388-413 of `_process_public_sample`: the av-scan section and
the closing status construction. -/
def _process_public_sample_scans (report : Report) (msgs0 : List String)
    (scandate : JVal) : VTM PubStatus := do
  let scans := rget report "scans" (.arr [])
  let msgs ← scansSectionMsgs scans msgs0
  if msgs.isEmpty then
    pure ⟨true, "Processed Public Report Information.", scandate⟩
  else
    pure ⟨false, String.intercalate "\n" msgs, scandate⟩

/-- The `_process_public_sample`: emit the header `stats` finding (label
`"%d / %d" % (positives, total)` with both defaulting to 0), the
`permalink` finding, and one `av result` finding per engine; a falsy
`scans` section is soft-failed by name instead. -/
def _process_public_sample (report : Report) : VTM PubStatus := do
  let vtmsg := rget report "verbose_msg" (.bool false)
  let msgs0 : List String :=
    if truthy vtmsg then [] else ["No verbose message provided by VT."]
  let stats : JVal := .obj
    [("scan_date", rget report "scan_date" (.str "")),
     ("positives", rget report "positives" (.num 0)),
     ("total", rget report "total" (.num 0))]
  let ps ← liftE (pyFmtD (rget report "positives" (.num 0)))
  let ts ← liftE (pyFmtD (rget report "total" (.num 0)))
  let result_string := ps ++ " / " ++ ts
  let scandate := rget report "scan_date" (.str "")
  _add_result "stats" (.str result_string) stats
  _add_result "permalink" (rget report "permalink" (.str "No link")) .null
  _process_public_sample_scans report msgs0 scandate

/-! ### `_process_private_sample_metadata` (lines 415-491) -/

/-- Loop of the PE language section (`pe_lang.iteritems()`). -/
def peLangLoop : List (String × JVal) → VTM Unit
  | [] => pure ()
  | (k, v) :: rest => do
    _add_result "Language Information" (.str k) (.obj [("Value", v)])
    peLangLoop rest

/-- Developer-metadata emission (lines 446-449): one finding when any of
the five field values differs from the empty string. -/
def developerAdd (exiftool_dict : JVal) (pn pv fv fd inm : JVal) : VTM Unit :=
  if [pn, pv, fv, fd, inm].any (fun v => pyEq v (.str "") = false) then do
    let cn ← liftE (pyGet exiftool_dict "CompanyName" (.str ""))
    _add_result "Developer Metadata" cn
      (.obj [("Product Name", pn), ("Product Version", pv),
             ("File Version", fv), ("File Description", fd),
             ("InternalName", inm)])
  else
    pure ()

/-- Exiftool section (lines 438-452). -/
def exiftoolSection (exiftool_dict : JVal) : VTM (List String) :=
  if truthy exiftool_dict then do
    let pn ← liftE (pyGet exiftool_dict "ProductName" (.str ""))
    let pv ← liftE (pyGet exiftool_dict "ProductVersionNumber" (.str ""))
    let fv ← liftE (pyGet exiftool_dict "FileVersionNumber" (.str ""))
    let fd ← liftE (pyGet exiftool_dict "FileDescription" (.str ""))
    let inm ← liftE (pyGet exiftool_dict "InternalName" (.str ""))
    developerAdd exiftool_dict pn pv fv fd inm
    pure []
  else
    pure ["Exiftool data not included in VT response."]

/-- Signature-information emission (lines 468-472). -/
def signatureAdd (sigcheck_dict : JVal) (c d fv inm onm pr ld pb sg sd : JVal) :
    VTM Unit :=
  if [c, d, fv, inm, onm, pr, ld, pb, sg, sd].any
      (fun v => pyEq v (.str "") = false) then do
    let pb2 ← liftE (pyGet sigcheck_dict "publisher" (.str ""))
    _add_result "Signature Information" pb2
      (.obj [("Copyright", c), ("Description", d), ("File Version", fv),
             ("Internal Name", inm), ("Original Name", onm),
             ("Product", pr), ("Link Date", ld), ("Publisher", pb),
             ("Signers", sg), ("Signing Date", sd)])
  else
    pure ()

/-- Sigcheck section (lines 455-474). -/
def sigcheckSection (sigcheck_dict : JVal) : VTM (List String) :=
  if truthy sigcheck_dict then do
    let c ← liftE (pyGet sigcheck_dict "copyright" (.str ""))
    let d ← liftE (pyGet sigcheck_dict "description" (.str ""))
    let fv ← liftE (pyGet sigcheck_dict "file version" (.str ""))
    let inm ← liftE (pyGet sigcheck_dict "internal name" (.str ""))
    let onm ← liftE (pyGet sigcheck_dict "original name" (.str ""))
    let pr ← liftE (pyGet sigcheck_dict "product" (.str ""))
    let ld ← liftE (pyGet sigcheck_dict "link date" (.str ""))
    let pb ← liftE (pyGet sigcheck_dict "publisher" (.str ""))
    let sg ← liftE (pyGet sigcheck_dict "signers" (.str ""))
    let sd ← liftE (pyGet sigcheck_dict "signing date" (.str ""))
    signatureAdd sigcheck_dict c d fv inm onm pr ld pb sg sd
    pure []
  else
    pure ["Signature data not included in VT response."]

/-- PE language section (lines 477-482): `iteritems` on a truthy
non-dict raises AttributeError. -/
def peLangSection (pe_lang : JVal) : VTM (List String) :=
  if truthy pe_lang then
    match pe_lang with
    | .obj l => do
      peLangLoop l
      pure []
    | _ => liftE (.error .attributeError)
  else
    pure ["PE Language data not included in VT response."]

/-- The `_process_private_sample_metadata`: developer metadata from exiftool,
signature information from sigcheck, PE resource languages; each falsy
section soft-fails by name. -/
def _process_private_sample_metadata (report : Report) : VTM PMsg := do
  let additional_info_dict := rget report "additional_info" (.obj [])
  let exiftool_dict ← liftE (pyGet additional_info_dict "exiftool" (.obj []))
  let sigcheck_dict ← liftE (pyGet additional_info_dict "sigcheck" (.obj []))
  let msgs1 ← exiftoolSection exiftool_dict
  let msgs2 ← sigcheckSection sigcheck_dict
  let pe_lang ← liftE (pyGet additional_info_dict "pe-resource-langs" (.obj []))
  let msgs3 ← peLangSection pe_lang
  pure (mkPMsg (msgs1 ++ msgs2 ++ msgs3) "Processed private sample metadata.")

/-! ### `_process_private_sample_vtmetadata` (lines 493-544) -/

/-- Loop of `for item in report.get(submission_names, [])`. -/
def subNamesLoop : List JVal → VTM Unit
  | [] => pure ()
  | x :: rest => do
    _add_result "VirusTotal Submission Names" x .null
    subNamesLoop rest

/-- The `_process_private_sample_vtmetadata`: timestamps, submission names
and the community reputation finding, whose label is
`"%d / %d" % (malicious_votes, harmless_votes)`. -/
def _process_private_sample_vtmetadata (report : Report) : VTM PMsg := do
  let additional_info_dict := rget report "additional_info" (.obj [])
  if truthy additional_info_dict then do
    let vt_metadata : JVal := .obj
      [("First Seen", rget report "first_seen" (.str "")),
       ("Last Seen", rget report "last_seen" (.str "")),
       ("Times Submitted", rget report "times_submitted" (.str "")),
       ("Unique Sources", rget report "unique_sources" (.str ""))]
    _add_result "VirusTotal Timestamps" (rget report "scan_id" (.str "")) vt_metadata
    let names ← liftE (pyIter (rget report "submission_names" (.arr [])))
    subNamesLoop names
    let vt_reputation : JVal := .obj
      [("Community Reputation", rget report "community_reputation" (.num 0)),
       ("Harmless Votes", rget report "harmless_votes" (.num 0)),
       ("Malicious Votes", rget report "malicious_votes" (.num 0))]
    let ms ← liftE (pyFmtD (rget report "malicious_votes" (.num 0)))
    let hs ← liftE (pyFmtD (rget report "harmless_votes" (.num 0)))
    _add_result "VirusTotal Reputation" (.str (ms ++ " / " ++ hs)) vt_reputation
    pure (⟨true, "Processed private sample vtmetadata."⟩ : PMsg)
  else
    pure (⟨false, "Additional information not included in VT response."⟩ : PMsg)

/-! ### `_process_private_sample_behaviour` (lines 546-644) -/

/-- DNS loop (lines 574-582). Each entry yields a finding; when the
hostname is truthy the source then calls `self._process_domain(...)`,
but `_process_domain` is defined at module level (its `def` sits at
column 0, line 870), not as a method of `VirusTotalService`, so the
attribute lookup on `self` raises AttributeError. -/
def dnsLoop (scandate : JVal) : List JVal → VTM Unit
  | [] => pure ()
  | item :: rest => do
    let domain ← liftE (pyGet item "hostname" .null)
    let ip ← liftE (pyGet item "ip" .null)
    _add_result "VirusTotal Behaviour DNS" (.str (pyStr domain))
      (.obj [("IP_Address", .str (pyStr ip))])
    let _ ← (if truthy domain then liftE (.error .attributeError) else pure () : VTM Unit)
    dnsLoop scandate rest

/-- HTTP loop (lines 588-594). -/
def httpLoop : List JVal → VTM Unit
  | [] => pure ()
  | item :: rest => do
    let method ← liftE (pyGet item "method" (.str ""))
    let ua ← liftE (pyGet item "user-agent" (.str ""))
    let url ← liftE (pyGet item "url" (.str ""))
    _add_result "VirusTotal Behaviour HTTP" url
      (.obj [("Method", method), ("User-agent", ua)])
    httpLoop rest

/-- TCP loop (lines 600-602). -/
def tcpLoop : List JVal → VTM Unit
  | [] => pure ()
  | item :: rest => do
    _add_result "VirusTotal Behaviour TCP" item .null
    tcpLoop rest

/-- UDP loop (lines 608-610). -/
def udpLoop : List JVal → VTM Unit
  | [] => pure ()
  | item :: rest => do
    _add_result "VirusTotal Behaviour UDP" item .null
    udpLoop rest

/-- Extra-flags loop (lines 616-618). -/
def extraLoop : List JVal → VTM Unit
  | [] => pure ()
  | item :: rest => do
    _add_result "VirusTotal Behaviour Flag" item (.obj [("VT_Flag", .str "VT_Flag")])
    extraLoop rest

/-- Hooking loop (lines 624-630). -/
def hookLoop : List JVal → VTM Unit
  | [] => pure ()
  | item :: rest => do
    let method ← liftE (pyGet item "method" (.str ""))
    let success ← liftE (pyGet item "success" (.str ""))
    let ty ← liftE (pyGet item "type" (.str ""))
    _add_result "Virus Total Hooking Detected" ty
      (.obj [("method", method), ("success", success)])
    hookLoop rest

/-- DNS section (lines 572-584). -/
def dnsSection (scandate : JVal) (dns : JVal) : VTM (List String) :=
  if truthy dns then do
    let items ← liftE (pyIter dns)
    dnsLoop scandate items
    pure []
  else
    pure ["DNS behaviour information not included in VT response."]

/-- HTTP section (lines 587-596). -/
def httpSection (http : JVal) : VTM (List String) :=
  if truthy http then do
    let items ← liftE (pyIter http)
    httpLoop items
    pure []
  else
    pure ["HTTP behaviour information not included in VT response."]

/-- TCP section (lines 599-604). -/
def tcpSection (tcp : JVal) : VTM (List String) :=
  if truthy tcp then do
    let items ← liftE (pyIter tcp)
    tcpLoop items
    pure []
  else
    pure ["TCP behaviour information not included in VT response."]

/-- UDP section (lines 607-612). -/
def udpSection (udp : JVal) : VTM (List String) :=
  if truthy udp then do
    let items ← liftE (pyIter udp)
    udpLoop items
    pure []
  else
    pure ["UDP behaviour information not included in VT response."]

/-- Network block (lines 568-612): a falsy network dict is silently
skipped (the source has no else branch for it). -/
def networkSection (scandate : JVal) (behaviour_network_dict : JVal) :
    VTM (List String) :=
  if truthy behaviour_network_dict then do
    let dns ← liftE (pyGet behaviour_network_dict "dns" (.arr []))
    let m1 ← dnsSection scandate dns
    let http ← liftE (pyGet behaviour_network_dict "http" (.arr []))
    let m2 ← httpSection http
    let tcp ← liftE (pyGet behaviour_network_dict "tcp" (.arr []))
    let m3 ← tcpSection tcp
    let udp ← liftE (pyGet behaviour_network_dict "udp" (.arr []))
    let m4 ← udpSection udp
    pure (m1 ++ m2 ++ m3 ++ m4)
  else
    pure []

/-- Extra-flags section (lines 615-620). -/
def extraSection (behaviour_extra : JVal) : VTM (List String) :=
  if truthy behaviour_extra then do
    let items ← liftE (pyIter behaviour_extra)
    extraLoop items
    pure []
  else
    pure ["Behaviour flag information not included in VT response."]

/-- Hooking section (lines 622-632). -/
def hookingSection (behaviour_hooking : JVal) : VTM (List String) :=
  if truthy behaviour_hooking then do
    let items ← liftE (pyIter behaviour_hooking)
    hookLoop items
    pure []
  else
    pure ["Hooking behaviour information not included in VT response."]

/-- The `_process_private_sample_behaviour`: network (dns, http, tcp, udp),
extra flags and hooking sections of `additional_info["behaviour-v1"]`. -/
def _process_private_sample_behaviour (report : Report) (scandate : JVal) :
    VTM PMsg := do
  let additional_info_dict := rget report "additional_info" (.obj [])
  let behaviour_dict ← liftE (pyGet additional_info_dict "behaviour-v1" (.obj []))
  if truthy behaviour_dict then do
    let behaviour_network_dict ← liftE (pyGet behaviour_dict "network" (.obj []))
    let msgsNet ← networkSection scandate behaviour_network_dict
    let behaviour_extra ← liftE (pyGet behaviour_dict "extra" (.arr []))
    let m5 ← extraSection behaviour_extra
    let behaviour_hooking ← liftE (pyGet behaviour_dict "hooking" (.arr []))
    let m6 ← hookingSection behaviour_hooking
    pure (mkPMsg (msgsNet ++ m5 ++ m6) "Processed private sample behaviour data.")
  else
    pure (mkPMsg ["Behaviour information not included in VT response."]
      "Processed private sample behaviour data.")

/-! ### `_process_public_domain` (lines 646-746) and
`_process_public_ip` (lines 748-841) -/

/-- Detected-URL loop: stats `{scan_date, total, positives}` labelled by
the url. Shared by the domain (title `URLs`) and ip (title
`Detected URLs`) processors, whose loop bodies are identical. -/
def urlsLoop (title : String) : List JVal → VTM Unit
  | [] => pure ()
  | item :: rest => do
    let sd ← liftE (pyGet item "scan_date" (.str ""))
    let tot ← liftE (pyGet item "total" (.num 0))
    let pos ← liftE (pyGet item "positives" (.num 0))
    let url ← liftE (pyGet item "url" (.str ""))
    _add_result title url (.obj [("scan_date", sd), ("total", tot), ("positives", pos)])
    urlsLoop title rest

/-- Resolution loop: stats `{last_resolved}` labelled by `labelKey`
(`ip_address` for domains, `hostname` for IPs). -/
def resolutionsLoop (title labelKey : String) : List JVal → VTM Unit
  | [] => pure ()
  | item :: rest => do
    let lr ← liftE (pyGet item "last_resolved" (.str ""))
    let lab ← liftE (pyGet item labelKey (.str ""))
    _add_result title lab (.obj [("last_resolved", lr)])
    resolutionsLoop title labelKey rest

/-- Category loop of the domain processor. -/
def categoriesLoop : List JVal → VTM Unit
  | [] => pure ()
  | item :: rest => do
    _add_result "Categories" item (.obj [])
    categoriesLoop rest

/-- Communicating/downloaded sample loop: stats `{date, total,
positives}` labelled by `sha256` with the given default (the domain
processor defaults the label to 0, the ip processor to the empty
string). Shared by the eight structurally identical sections. -/
def commSampLoop (title : String) (labelDefault : JVal) : List JVal → VTM Unit
  | [] => pure ()
  | item :: rest => do
    let date ← liftE (pyGet item "date" (.str ""))
    let tot ← liftE (pyGet item "total" (.num 0))
    let pos ← liftE (pyGet item "positives" (.num 0))
    let lab ← liftE (pyGet item "sha256" labelDefault)
    _add_result title lab (.obj [("date", date), ("total", tot), ("positives", pos)])
    commSampLoop title labelDefault rest

/-- The `_process_public_domain`: detected urls, resolutions, categories and
the four communicating/downloaded sample sections, each soft-failing by
name when falsy. -/
def _process_public_domain (report : Report) : VTM PMsg := do
  let detected_urls := rget report "detected_urls" (.arr [])
  let m1 ←
    if truthy detected_urls then do
      let items ← liftE (pyIter detected_urls)
      urlsLoop "URLs" items
      pure ([] : List String)
    else
      pure ["URL information not included in VT response."]
  let resolutions := rget report "resolutions" (.arr [])
  let m2 ←
    if truthy resolutions then do
      let items ← liftE (pyIter resolutions)
      resolutionsLoop "A Records" "ip_address" items
      pure ([] : List String)
    else
      pure ["Resolution information not included in VT response."]
  let categories := rget report "categories" (.arr [])
  let m3 ←
    if truthy categories then do
      let items ← liftE (pyIter categories)
      categoriesLoop items
      pure ([] : List String)
    else
      pure ["Category information not included in VT response."]
  let communicating_samples := rget report "detected_communicating_samples" (.arr [])
  let m4 ←
    if truthy communicating_samples then do
      let items ← liftE (pyIter communicating_samples)
      commSampLoop "Detected Communicating Samples" (.num 0) items
      pure ([] : List String)
    else
      pure ["Detected communicating sample information not included in VT response."]
  let undetected_communicating_samples := rget report "undetected_communicating_samples" (.arr [])
  let m5 ←
    if truthy undetected_communicating_samples then do
      let items ← liftE (pyIter undetected_communicating_samples)
      commSampLoop "Undetected Communicating Samples" (.num 0) items
      pure ([] : List String)
    else
      pure ["Undetected communicating sample information not included in VT response."]
  let downloaded_samples := rget report "detected_downloaded_samples" (.arr [])
  let m6 ←
    if truthy downloaded_samples then do
      let items ← liftE (pyIter downloaded_samples)
      commSampLoop "Detected Downloaded Samples" (.num 0) items
      pure ([] : List String)
    else
      pure ["Downloaded sample information not included in VT response."]
  let undetected_downloaded_samples := rget report "undetected_downloaded_samples" (.arr [])
  let m7 ←
    if truthy undetected_downloaded_samples then do
      let items ← liftE (pyIter undetected_downloaded_samples)
      commSampLoop "Undetected Downloaded Samples" (.num 0) items
      pure ([] : List String)
    else
      pure ["Undetected domain sample information not included in VT response."]
  pure (mkPMsg (m1 ++ m2 ++ m3 ++ m4 ++ m5 ++ m6 ++ m7)
    "Processed public domain information.")

/-- The `_process_public_ip`: the ip-report sections, structurally the same
walk with ip-specific titles, label keys and messages. -/
def _process_public_ip (report : Report) : VTM PMsg := do
  let detected_urls := rget report "detected_urls" (.arr [])
  let m1 ←
    if truthy detected_urls then do
      let items ← liftE (pyIter detected_urls)
      urlsLoop "Detected URLs" items
      pure ([] : List String)
    else
      pure ["Detected URL information not included in VT response."]
  let resolutions := rget report "resolutions" (.arr [])
  let m2 ←
    if truthy resolutions then do
      let items ← liftE (pyIter resolutions)
      resolutionsLoop "Resolutions" "hostname" items
      pure ([] : List String)
    else
      pure ["Resolution information not included in VT response."]
  let detected_communicating_samples := rget report "detected_communicating_samples" (.arr [])
  let m3 ←
    if truthy detected_communicating_samples then do
      let items ← liftE (pyIter detected_communicating_samples)
      commSampLoop "Detected Communicating Samples" (.str "") items
      pure ([] : List String)
    else
      pure ["Detected communicating sample information not included in VT response."]
  let undetected_communicating_samples := rget report "undetected_communicating_samples" (.arr [])
  let m4 ←
    if truthy undetected_communicating_samples then do
      let items ← liftE (pyIter undetected_communicating_samples)
      commSampLoop "Undetected Communicating Samples" (.str "") items
      pure ([] : List String)
    else
      pure ["Undetected communicating sample information not included in VT response."]
  let detected_downloaded_samples := rget report "detected_downloaded_samples" (.arr [])
  let m5 ←
    if truthy detected_downloaded_samples then do
      let items ← liftE (pyIter detected_downloaded_samples)
      commSampLoop "Detected Downloaded Samples" (.str "") items
      pure ([] : List String)
    else
      pure ["Detected downloaded sample information not included in VT response."]
  let undetected_downloaded_samples := rget report "undetected_downloaded_samples" (.arr [])
  let m6 ←
    if truthy undetected_downloaded_samples then do
      let items ← liftE (pyIter undetected_downloaded_samples)
      commSampLoop "Undetected Downloaded Samples" (.str "") items
      pure ([] : List String)
    else
      pure ["Undetected downloaded sample information not included in VT response."]
  pure (mkPMsg (m1 ++ m2 ++ m3 ++ m4 ++ m5 ++ m6) "Processed public ip information.")

/-! ### `_process_pcap` (lines 843-868) and the module-level
`_process_domain` (lines 870-911) -/

/-- The `_process_pcap`: hand the binary to `handle_pcap_file` (recorded in
`pcapsAdded`) and emit the `pcap added` finding keyed by its md5. -/
def _process_pcap (env : Env) (pcap : List Nat) (scandate : JVal) : VTM Unit := do
  let st ← getSt
  _info ("Adding PCAP and creating relationship to " ++ st.obj.id)
  _notify
  let h := env.md5hex pcap
  modifySt fun s => { s with pcapsAdded := s.pcapsAdded ++ [h] }
  _add_result "pcap added" (.str h) (.obj [("md5", .str h)])

/-- The module-level function `_process_domain` of lines 870-911 (its
`def` sits at column 0, OUTSIDE the class body, so it is not a method and
is unreachable from `run`; it is embedded here as written): upsert the
domain, and on success add a `Related_To` relationship dated by the scan
date, logging collaborator failures as info messages, then save the
domain handle and the object. The scandate parameter is the relationship
date; the ip parameter is unused (a TODO in the source). -/
def _process_domain (env : Env) (domain ip scandate : JVal) : VTM Unit := do
  let st ← getSt
  _info ("Adding domain " ++ pyStr domain ++ " and creating relationship to " ++ st.obj.id)
  _notify
  modifySt fun s => { s with domainUpserts := s.domainUpserts ++ [pyStr domain] }
  let result := env.upsertOracle domain
  if result.success = false then
    _info ("Cannot add domain " ++ pyStr domain ++ ". reason: " ++ result.message)
  else do
    let rel : RelRecord := ⟨pyStr domain, "Related_To", scandate,
      "Provided by VirusTotal. Date is from when vt analysis was performed"⟩
    modifySt fun s => { s with relsAdded := s.relsAdded ++ [rel] }
    let msg := env.relOracle rel
    if msg.success = false then
      _info ("Cannot add relationship because " ++ msg.message)
    else
      pure ()
    modifySt fun s => { s with domainSaves := s.domainSaves + 1 }
    modifySt fun s => { s with objSaves := s.objSaves + 1 }
    let _ := ip
    pure ()

/-! ### `run` (lines 142-251) -/

/-- The `if not response[success]: self._info(response[message])`, the
pattern repeated after every processing call in `run`. -/
def infoIfFailed (r : PMsg) : VTM Unit :=
  if r.success = false then _info r.message else pure ()

/-- The same pattern for the public-sample status dict. -/
def infoIfFailedPub (r : PubStatus) : VTM Unit :=
  if r.success = false then _info r.message else pure ()

/-- Lines 213-237 of `run`: the private-key sections (metadata,
vtmetadata, behaviour) and the optional pcap pull. -/
def run_process_sample_priv (env : Env) (config : Config) (response_dict : Report)
    (scandate : JVal) : VTM Unit := do
  let r1 ← _process_private_sample_metadata response_dict
  infoIfFailed r1
  let r2 ← _process_private_sample_vtmetadata response_dict
  infoIfFailed r2
  let r3 ← _process_private_sample_behaviour response_dict scandate
  infoIfFailed r3
  if truthy (rget config "vt_add_pcap" (.bool false)) then do
    let st2 ← getSt
    let pcap ← get_pcap env st2.obj.md5
    match pcap with
    | some c => if c.isEmpty then pure () else _process_pcap env c scandate
    | none => pure ()
  else
    pure ()

/-- Lines 208-237 of `run`: what follows the public-sample processing in
the Sample branch (the soft-failure info message and, when the key is
flagged private, the private sections). -/
def run_process_sample_post (env : Env) (config : Config) (response_dict : Report)
    (response : PubStatus) : VTM Unit := do
  infoIfFailedPub response
  if truthy (rget config "vt_api_key_private" (.bool false)) then
    run_process_sample_priv env config response_dict response.scandate
  else
    pure ()

/-- Lines 200-251 of `run`: dispatch the ready report by indicator kind.
The private-key and pcap flags are re-read from the immutable config
(the source reads them into locals at the top of `run`). -/
def run_process (env : Env) (config : Config) (response_dict : Report) : VTM Unit := do
  let st ← getSt
  match st.obj.crits_type with
  | .Sample => do
    _process_hashes response_dict
    let response ← _process_public_sample response_dict
    run_process_sample_post env config response_dict response
  | .Domain => do
    let response ← _process_public_domain response_dict
    infoIfFailed response
  | .IP => do
    let response ← _process_public_ip response_dict
    infoIfFailed response

/-- Lines 195-198 of `run`: the final re-fetch shared by the queued and
the upload branch, aborting unless it yields a truthy report with
response code 1. -/
def run_refetch (env : Env) (config : Config) : VTM Unit := do
  let rd ← _get_sample_data env
  if truthyResp rd = false
      || pyEqInt (rget (rd.getD []) "response_code" (.num 0)) 1 = false then
    _error "Getting sample data from VT failed at last!"
  else
    run_process env config (rd.getD [])

/-- The `run` (lines 142-251): read the configuration (the upload flag
defaults to TRUE here, line 153), abort without a key, fetch, then
dispatch on the response code: ready processes directly; queued sleeps
and re-fetches once; unknown with upload enabled uploads, sleeps and
re-fetches twice (line 189 and line 195, the first result being
discarded); anything else aborts. The endpoint URLs are read but only
shape the outbound requests, which the fetch oracle absorbs. -/
def run (env : Env) (config : Config) : VTM Unit := do
  let _private_key := rget config "vt_api_key_private" (.bool false)
  let _pull_pcap := rget config "vt_add_pcap" (.bool false)
  let key := rget config "vt_api_key" (.str "")
  let _sample_url := rget config "vt_query_url" (.str "")
  let _domain_url := rget config "vt_domain_url" (.str "")
  let _ip_url := rget config "vt_ip_url" (.str "")
  let upload_unknown_sample := rget config "vt_upload_unknown_sample" (.bool true)
  let wait_for_processing ← liftE (pyInt (rget config "vt_wait_for_processing" (.num 5)))
  if truthy key = false then
    _error "No valid VT key found"
  else do
    let rd0 ← _get_sample_data env
    if truthyResp rd0 = false then
      _error "Getting sample data from VT failed!"
    else do
      let response_dict := rd0.getD []
      let response_code := rget response_dict "response_code" (.num 0)
      if pyEqInt response_code 1 = false then
        if pyEqInt response_code (-2) then do
          _info (s!"Waiting {wait_for_processing} minutes for VT processing")
          _sleep (60 * wait_for_processing)
          run_refetch env config
        else if pyEqInt response_code 0 && truthy upload_unknown_sample then do
          let up ← _upload_sample env
          if up = false then
            pure ()
          else do
            _info (s!"Waiting {wait_for_processing} minutes for VT processing")
            _sleep (60 * wait_for_processing)
            let _ ← _get_sample_data env
            run_refetch env config
        else
          _error "Exiting because Virustotal provided a negative response code."
      else
        run_process env config response_dict

/-- Final state of a run result, whether it ended normally or by an
uncaught Python exception (side effects before the raise persist). -/
def finalState {α : Type} : EStateM.Result PyErr RunState α → RunState
  | .ok _ s => s
  | .error _ s => s

/-- Value of a run result, `none` when it raised. -/
def resultOf {α : Type} : EStateM.Result PyErr RunState α → Option α
  | .ok a _ => some a
  | .error _ _ => none

/-- Exception of a run result, `none` when it ended normally. -/
def errOf {α : Type} : EStateM.Result PyErr RunState α → Option PyErr
  | .ok _ _ => none
  | .error e _ => some e

/-- A configuration of the shape the service consumes: key, privileged
flag, pcap flag, optional upload flag (absent models a config that never
set it) and the wait duration in minutes. -/
def mkConfig (key : String) (priv pcap : Bool) (upl : Option Bool) (w : Nat) : Config :=
  [("vt_api_key", .str key), ("vt_api_key_private", .bool priv),
   ("vt_add_pcap", .bool pcap)]
  ++ (match upl with
      | some b => [("vt_upload_unknown_sample", .bool b)]
      | none => [])
  ++ [("vt_wait_for_processing", .num w)]

theorem mkConfig_key (key : String) (priv pcap : Bool) (upl : Option Bool) (w : Nat) :
    rget (mkConfig key priv pcap upl w) "vt_api_key" (.str "") = .str key := by
  cases upl <;> rfl

theorem mkConfig_priv (key : String) (priv pcap : Bool) (upl : Option Bool) (w : Nat) :
    rget (mkConfig key priv pcap upl w) "vt_api_key_private" (.bool false) = .bool priv := by
  cases upl <;> rfl

theorem mkConfig_pcap (key : String) (priv pcap : Bool) (upl : Option Bool) (w : Nat) :
    rget (mkConfig key priv pcap upl w) "vt_add_pcap" (.bool false) = .bool pcap := by
  cases upl <;> rfl

theorem mkConfig_upl (key : String) (priv pcap : Bool) (upl : Option Bool) (w : Nat) :
    rget (mkConfig key priv pcap upl w) "vt_upload_unknown_sample" (.bool true) =
      (match upl with | some b => .bool b | none => .bool true) := by
  cases upl <;> rfl

theorem mkConfig_wait (key : String) (priv pcap : Bool) (upl : Option Bool) (w : Nat) :
    rget (mkConfig key priv pcap upl w) "vt_wait_for_processing" (.num 5) = .num w := by
  cases upl <;> rfl

theorem mkConfig_qurl (key : String) (priv pcap : Bool) (upl : Option Bool) (w : Nat) :
    rget (mkConfig key priv pcap upl w) "vt_query_url" (.str "") = .str "" := by
  cases upl <;> rfl

theorem mkConfig_durl (key : String) (priv pcap : Bool) (upl : Option Bool) (w : Nat) :
    rget (mkConfig key priv pcap upl w) "vt_domain_url" (.str "") = .str "" := by
  cases upl <;> rfl

theorem mkConfig_iurl (key : String) (priv pcap : Bool) (upl : Option Bool) (w : Nat) :
    rget (mkConfig key priv pcap upl w) "vt_ip_url" (.str "") = .str "" := by
  cases upl <;> rfl

/-! ### Frame lemmas: the processing helpers only append findings and
never touch the upload counter, the object, the saves, the fetch counter
or the sleeps. These carry the claims about what a run can NOT do. -/

/-- Post-fetch frame between two states: findings only grow; uploads,
object saves, the object itself, fetches and sleeps are untouched. -/
def stateFrame (st st2 : RunState) : Prop :=
  (∃ l, st2.results = st.results ++ l) ∧
  st2.uploadCalls = st.uploadCalls ∧
  st2.objSaves = st.objSaves ∧
  st2.obj = st.obj ∧
  st2.fetchCount = st.fetchCount ∧
  st2.sleeps = st.sleeps

theorem stateFrame_refl (st : RunState) : stateFrame st st :=
  ⟨⟨[], (List.append_nil _).symm⟩, rfl, rfl, rfl, rfl, rfl⟩

theorem stateFrame_trans {s1 s2 s3 : RunState}
    (h12 : stateFrame s1 s2) (h23 : stateFrame s2 s3) : stateFrame s1 s3 := by
  obtain ⟨⟨l1, hl1⟩, a1, b1, c1, d1, e1⟩ := h12
  obtain ⟨⟨l2, hl2⟩, a2, b2, c2, d2, e2⟩ := h23
  exact ⟨⟨l1 ++ l2, by rw [hl2, hl1, List.append_assoc]⟩,
    a2.trans a1, b2.trans b1, c2.trans c1, d2.trans d1, e2.trans e1⟩

/-- A computation satisfies `Frames` when, ending normally or raising, it
relates its input state to its final state by `stateFrame`. -/
def Frames {α : Type} (m : VTM α) : Prop :=
  ∀ st, stateFrame st (finalState (m st))

theorem bind_ok {α β : Type} {m : VTM α} {k : α → VTM β} {st s1 : RunState} {a : α}
    (h : m st = .ok a s1) : (m >>= k) st = k a s1 := by
  show EStateM.bind m k st = k a s1
  simp only [EStateM.bind, h]

theorem bind_err {α β : Type} {m : VTM α} {k : α → VTM β} {st s1 : RunState} {e : PyErr}
    (h : m st = .error e s1) : (m >>= k) st = .error e s1 := by
  show EStateM.bind m k st = EStateM.Result.error e s1
  simp only [EStateM.bind, h]

theorem frames_bind {α β : Type} {m : VTM α} {k : α → VTM β}
    (hm : Frames m) (hk : ∀ a, Frames (k a)) : Frames (m >>= k) := by
  intro st
  have h1 := hm st
  cases hms : m st with
  | ok a s1 =>
    rw [bind_ok hms]
    rw [hms] at h1
    exact stateFrame_trans h1 (hk a s1)
  | error e s1 =>
    rw [bind_err hms]
    rw [hms] at h1
    exact h1

theorem frames_pure {α : Type} (a : α) : Frames (pure a : VTM α) :=
  fun st => stateFrame_refl st

theorem frames_liftE {α : Type} (e : Except PyErr α) : Frames (liftE e) := by
  intro st
  cases e <;> exact stateFrame_refl st

theorem frames_getSt : Frames getSt :=
  fun st => stateFrame_refl st

theorem frames_ite {α : Type} {c : Prop} [Decidable c] {m m2 : VTM α}
    (h1 : Frames m) (h2 : Frames m2) : Frames (if c then m else m2) := by
  split
  · exact h1
  · exact h2

theorem frames_add_result (title : String) (label detail : JVal) :
    Frames (_add_result title label detail) := by
  intro st
  exact ⟨⟨[⟨title, label, detail⟩], rfl⟩, rfl, rfl, rfl, rfl, rfl⟩

theorem frames_info (m : String) : Frames (_info m) :=
  fun st => ⟨⟨[], (List.append_nil _).symm⟩, rfl, rfl, rfl, rfl, rfl⟩

theorem frames_warning (m : String) : Frames (_warning m) :=
  fun st => ⟨⟨[], (List.append_nil _).symm⟩, rfl, rfl, rfl, rfl, rfl⟩

theorem frames_error (m : String) : Frames (_error m) :=
  fun st => ⟨⟨[], (List.append_nil _).symm⟩, rfl, rfl, rfl, rfl, rfl⟩

theorem frames_notify : Frames _notify :=
  fun st => ⟨⟨[], (List.append_nil _).symm⟩, rfl, rfl, rfl, rfl, rfl⟩

theorem frames_avScanLoop (scans : JVal) (ks : List String) :
    Frames (avScanLoop scans ks) := by
  induction ks with
  | nil => exact frames_pure ()
  | cons k rest ih =>
    simp only [avScanLoop]
    exact frames_bind (frames_liftE _) fun entry =>
      frames_bind (frames_liftE _) fun res =>
      frames_bind (frames_liftE _) fun date =>
      frames_bind (frames_liftE _) fun detected =>
      frames_bind (frames_liftE _) fun version =>
      frames_bind (frames_add_result _ _ _) fun _ => ih

theorem frames_scanSection (scans : JVal) : Frames (scanSection scans) := by
  cases scans <;> simp only [scanSection] <;>
    first
      | exact frames_liftE _
      | exact frames_avScanLoop _ _

theorem frames_scansSectionMsgs (scans : JVal) (msgs0 : List String) :
    Frames (scansSectionMsgs scans msgs0) := by
  simp only [scansSectionMsgs]
  exact frames_ite (frames_bind (frames_scanSection _) fun _ => frames_pure _)
    (frames_pure _)

theorem frames_public_sample_scans (report : Report) (msgs0 : List String)
    (scandate : JVal) : Frames (_process_public_sample_scans report msgs0 scandate) := by
  simp only [_process_public_sample_scans]
  refine frames_bind (frames_scansSectionMsgs _ _) fun msgs => ?_
  exact frames_ite (frames_pure _) (frames_pure _)

theorem frames_public_sample (report : Report) :
    Frames (_process_public_sample report) := by
  simp only [_process_public_sample]
  exact frames_bind (frames_liftE _) fun ps =>
    frames_bind (frames_liftE _) fun ts =>
    frames_bind (frames_add_result _ _ _) fun _ =>
    frames_bind (frames_add_result _ _ _) fun _ =>
    frames_public_sample_scans _ _ _

theorem frames_peLangLoop (l : List (String × JVal)) : Frames (peLangLoop l) := by
  induction l with
  | nil => exact frames_pure ()
  | cons kv rest ih =>
    obtain ⟨k, v⟩ := kv
    simp only [peLangLoop]
    exact frames_bind (frames_add_result _ _ _) fun _ => ih

theorem frames_developerAdd (exiftool_dict pn pv fv fd inm : JVal) :
    Frames (developerAdd exiftool_dict pn pv fv fd inm) := by
  simp only [developerAdd]
  exact frames_ite (frames_bind (frames_liftE _) fun cn => frames_add_result _ _ _)
    (frames_pure _)

theorem frames_exiftoolSection (exiftool_dict : JVal) :
    Frames (exiftoolSection exiftool_dict) := by
  simp only [exiftoolSection]
  refine frames_ite ?_ (frames_pure _)
  exact frames_bind (frames_liftE _) fun pn =>
    frames_bind (frames_liftE _) fun pv =>
    frames_bind (frames_liftE _) fun fv =>
    frames_bind (frames_liftE _) fun fd =>
    frames_bind (frames_liftE _) fun inm =>
    frames_bind (frames_developerAdd _ _ _ _ _ _) fun _ => frames_pure _

theorem frames_signatureAdd (sigcheck_dict c d fv inm onm pr ld pb sg sd : JVal) :
    Frames (signatureAdd sigcheck_dict c d fv inm onm pr ld pb sg sd) := by
  simp only [signatureAdd]
  exact frames_ite (frames_bind (frames_liftE _) fun pb2 => frames_add_result _ _ _)
    (frames_pure _)

theorem frames_sigcheckSection (sigcheck_dict : JVal) :
    Frames (sigcheckSection sigcheck_dict) := by
  simp only [sigcheckSection]
  refine frames_ite ?_ (frames_pure _)
  exact frames_bind (frames_liftE _) fun c =>
    frames_bind (frames_liftE _) fun d =>
    frames_bind (frames_liftE _) fun fv =>
    frames_bind (frames_liftE _) fun inm =>
    frames_bind (frames_liftE _) fun onm =>
    frames_bind (frames_liftE _) fun pr =>
    frames_bind (frames_liftE _) fun ld =>
    frames_bind (frames_liftE _) fun pb =>
    frames_bind (frames_liftE _) fun sg =>
    frames_bind (frames_liftE _) fun sd =>
    frames_bind (frames_signatureAdd _ _ _ _ _ _ _ _ _ _ _) fun _ => frames_pure _

theorem frames_peLangSection (pe_lang : JVal) : Frames (peLangSection pe_lang) := by
  simp only [peLangSection]
  refine frames_ite ?_ (frames_pure _)
  cases pe_lang <;>
    first
      | exact frames_liftE _
      | exact frames_bind (frames_peLangLoop _) fun _ => frames_pure _

theorem frames_metadata (report : Report) :
    Frames (_process_private_sample_metadata report) := by
  simp only [_process_private_sample_metadata]
  exact frames_bind (frames_liftE _) fun exiftool_dict =>
    frames_bind (frames_liftE _) fun sigcheck_dict =>
    frames_bind (frames_exiftoolSection _) fun msgs1 =>
    frames_bind (frames_sigcheckSection _) fun msgs2 =>
    frames_bind (frames_liftE _) fun pe_lang =>
    frames_bind (frames_peLangSection _) fun msgs3 => frames_pure _

theorem frames_subNamesLoop (l : List JVal) : Frames (subNamesLoop l) := by
  induction l with
  | nil => exact frames_pure ()
  | cons x rest ih =>
    simp only [subNamesLoop]
    exact frames_bind (frames_add_result _ _ _) fun _ => ih

theorem frames_vtmetadata (report : Report) :
    Frames (_process_private_sample_vtmetadata report) := by
  simp only [_process_private_sample_vtmetadata]
  refine frames_ite ?_ (frames_pure _)
  exact frames_bind (frames_add_result _ _ _) fun _ =>
    frames_bind (frames_liftE _) fun names =>
    frames_bind (frames_subNamesLoop _) fun _ =>
    frames_bind (frames_liftE _) fun ms =>
    frames_bind (frames_liftE _) fun hs =>
    frames_bind (frames_add_result _ _ _) fun _ => frames_pure _

theorem frames_dnsLoop (scandate : JVal) (l : List JVal) :
    Frames (dnsLoop scandate l) := by
  induction l with
  | nil => exact frames_pure ()
  | cons item rest ih =>
    simp only [dnsLoop]
    exact frames_bind (frames_liftE _) fun domain =>
      frames_bind (frames_liftE _) fun ip =>
      frames_bind (frames_add_result _ _ _) fun _ =>
      frames_bind (frames_ite (frames_liftE _) (frames_pure _)) fun _ => ih

theorem frames_httpLoop (l : List JVal) : Frames (httpLoop l) := by
  induction l with
  | nil => exact frames_pure ()
  | cons item rest ih =>
    simp only [httpLoop]
    exact frames_bind (frames_liftE _) fun method =>
      frames_bind (frames_liftE _) fun ua =>
      frames_bind (frames_liftE _) fun url =>
      frames_bind (frames_add_result _ _ _) fun _ => ih

theorem frames_tcpLoop (l : List JVal) : Frames (tcpLoop l) := by
  induction l with
  | nil => exact frames_pure ()
  | cons item rest ih =>
    simp only [tcpLoop]
    exact frames_bind (frames_add_result _ _ _) fun _ => ih

theorem frames_udpLoop (l : List JVal) : Frames (udpLoop l) := by
  induction l with
  | nil => exact frames_pure ()
  | cons item rest ih =>
    simp only [udpLoop]
    exact frames_bind (frames_add_result _ _ _) fun _ => ih

theorem frames_extraLoop (l : List JVal) : Frames (extraLoop l) := by
  induction l with
  | nil => exact frames_pure ()
  | cons item rest ih =>
    simp only [extraLoop]
    exact frames_bind (frames_add_result _ _ _) fun _ => ih

theorem frames_hookLoop (l : List JVal) : Frames (hookLoop l) := by
  induction l with
  | nil => exact frames_pure ()
  | cons item rest ih =>
    simp only [hookLoop]
    exact frames_bind (frames_liftE _) fun method =>
      frames_bind (frames_liftE _) fun success =>
      frames_bind (frames_liftE _) fun ty =>
      frames_bind (frames_add_result _ _ _) fun _ => ih

theorem frames_dnsSection (scandate dns : JVal) : Frames (dnsSection scandate dns) := by
  simp only [dnsSection]
  exact frames_ite
    (frames_bind (frames_liftE _) fun items =>
      frames_bind (frames_dnsLoop _ _) fun _ => frames_pure _)
    (frames_pure _)

theorem frames_httpSection (http : JVal) : Frames (httpSection http) := by
  simp only [httpSection]
  exact frames_ite
    (frames_bind (frames_liftE _) fun items =>
      frames_bind (frames_httpLoop _) fun _ => frames_pure _)
    (frames_pure _)

theorem frames_tcpSection (tcp : JVal) : Frames (tcpSection tcp) := by
  simp only [tcpSection]
  exact frames_ite
    (frames_bind (frames_liftE _) fun items =>
      frames_bind (frames_tcpLoop _) fun _ => frames_pure _)
    (frames_pure _)

theorem frames_udpSection (udp : JVal) : Frames (udpSection udp) := by
  simp only [udpSection]
  exact frames_ite
    (frames_bind (frames_liftE _) fun items =>
      frames_bind (frames_udpLoop _) fun _ => frames_pure _)
    (frames_pure _)

theorem frames_networkSection (scandate bn : JVal) :
    Frames (networkSection scandate bn) := by
  simp only [networkSection]
  refine frames_ite ?_ (frames_pure _)
  exact frames_bind (frames_liftE _) fun dns =>
    frames_bind (frames_dnsSection _ _) fun m1 =>
    frames_bind (frames_liftE _) fun http =>
    frames_bind (frames_httpSection _) fun m2 =>
    frames_bind (frames_liftE _) fun tcp =>
    frames_bind (frames_tcpSection _) fun m3 =>
    frames_bind (frames_liftE _) fun udp =>
    frames_bind (frames_udpSection _) fun m4 => frames_pure _

theorem frames_extraSection (be : JVal) : Frames (extraSection be) := by
  simp only [extraSection]
  exact frames_ite
    (frames_bind (frames_liftE _) fun items =>
      frames_bind (frames_extraLoop _) fun _ => frames_pure _)
    (frames_pure _)

theorem frames_hookingSection (bh : JVal) : Frames (hookingSection bh) := by
  simp only [hookingSection]
  exact frames_ite
    (frames_bind (frames_liftE _) fun items =>
      frames_bind (frames_hookLoop _) fun _ => frames_pure _)
    (frames_pure _)

theorem frames_behaviour (report : Report) (scandate : JVal) :
    Frames (_process_private_sample_behaviour report scandate) := by
  simp only [_process_private_sample_behaviour]
  refine frames_bind (frames_liftE _) fun behaviour_dict => ?_
  refine frames_ite ?_ (frames_pure _)
  exact frames_bind (frames_liftE _) fun bn =>
    frames_bind (frames_networkSection _ _) fun msgsNet =>
    frames_bind (frames_liftE _) fun be =>
    frames_bind (frames_extraSection _) fun m5 =>
    frames_bind (frames_liftE _) fun bh =>
    frames_bind (frames_hookingSection _) fun m6 => frames_pure _

theorem frames_get_pcap (env : Env) (m : String) : Frames (get_pcap env m) := by
  simp only [get_pcap]
  have h0 : Frames (modifySt fun s => { s with pcapFetches := s.pcapFetches + 1 }) :=
    fun st => ⟨⟨[], (List.append_nil _).symm⟩, rfl, rfl, rfl, rfl, rfl⟩
  refine frames_bind h0 fun _ => ?_
  cases env.pcapResp with
  | netError e => exact frames_bind (frames_error _) fun _ => frames_pure _
  | cap c => exact frames_bind (frames_info _) fun _ => frames_pure _
  | json => exact frames_bind (frames_warning _) fun _ => frames_pure _
  | other => exact frames_bind (frames_warning _) fun _ => frames_pure _

theorem frames_process_pcap (env : Env) (pcap : List Nat) (scandate : JVal) :
    Frames (_process_pcap env pcap scandate) := by
  simp only [_process_pcap]
  have h0 : ∀ h : String,
      Frames (modifySt fun s => { s with pcapsAdded := s.pcapsAdded ++ [h] }) :=
    fun h st => ⟨⟨[], (List.append_nil _).symm⟩, rfl, rfl, rfl, rfl, rfl⟩
  exact frames_bind frames_getSt fun st =>
    frames_bind (frames_info _) fun _ =>
    frames_bind frames_notify fun _ =>
    frames_bind (h0 _) fun _ => frames_add_result _ _ _

theorem frames_infoIfFailed (r : PMsg) : Frames (infoIfFailed r) := by
  simp only [infoIfFailed]
  exact frames_ite (frames_info _) (frames_pure _)

theorem frames_infoIfFailedPub (r : PubStatus) : Frames (infoIfFailedPub r) := by
  simp only [infoIfFailedPub]
  exact frames_ite (frames_info _) (frames_pure _)

theorem frames_sample_priv (env : Env) (config : Config) (rd : Report)
    (scandate : JVal) : Frames (run_process_sample_priv env config rd scandate) := by
  simp only [run_process_sample_priv]
  refine frames_bind (frames_metadata _) fun r1 => ?_
  refine frames_bind (frames_infoIfFailed _) fun _ => ?_
  refine frames_bind (frames_vtmetadata _) fun r2 => ?_
  refine frames_bind (frames_infoIfFailed _) fun _ => ?_
  refine frames_bind (frames_behaviour _ _) fun r3 => ?_
  refine frames_bind (frames_infoIfFailed _) fun _ => ?_
  refine frames_ite ?_ (frames_pure _)
  refine frames_bind frames_getSt fun st2 => ?_
  refine frames_bind (frames_get_pcap _ _) fun pcap => ?_
  cases pcap with
  | some c => exact frames_ite (frames_pure _) (frames_process_pcap _ _ _)
  | none => exact frames_pure _

theorem frames_sample_post (env : Env) (config : Config) (rd : Report)
    (response : PubStatus) : Frames (run_process_sample_post env config rd response) := by
  simp only [run_process_sample_post]
  exact frames_bind (frames_infoIfFailedPub _) fun _ =>
    frames_ite (frames_sample_priv _ _ _ _) (frames_pure _)

/-- Continuation application on a step result: ok states flow into the
continuation, errors propagate with their state. -/
def resCase {α β : Type} (k : α → VTM β) :
    EStateM.Result PyErr RunState α → EStateM.Result PyErr RunState β
  | .ok a s1 => k a s1
  | .error e s1 => .error e s1

@[simp] theorem resCase_ok {α β : Type} (k : α → VTM β) (a : α) (s : RunState) :
    resCase k (.ok a s) = k a s := rfl

@[simp] theorem resCase_err {α β : Type} (k : α → VTM β) (e : PyErr) (s : RunState) :
    resCase k (.error e s) = .error e s := rfl

/-- Stepping lemma: a bind applied to a state runs its first component. -/
@[simp] theorem bind_app {α β : Type} (m : VTM α) (k : α → VTM β) (st : RunState) :
    (m >>= k) st = resCase k (m st) := by
  cases h : m st with
  | ok a s1 => rw [bind_ok h]; rfl
  | error e s1 => rw [bind_err h]; rfl

/-- Stepping lemma: a mapped computation applied to a state. -/
@[simp] theorem map_app {α β : Type} (f : α → β) (m : VTM α) (st : RunState) :
    (f <$> m) st = resCase (fun a s1 => .ok (f a) s1) (m st) := by
  show EStateM.map f m st = _
  cases h : m st with
  | ok a s1 => simp only [EStateM.map, h, resCase]
  | error e s1 => simp only [EStateM.map, h, resCase]

@[simp] theorem liftE_ok_app {α : Type} (a : α) (st : RunState) :
    liftE (Except.ok a) st = .ok a st := rfl

@[simp] theorem liftE_err_app {α : Type} (e : PyErr) (st : RunState) :
    liftE (Except.error e : Except PyErr α) st = .error e st := rfl

@[simp] theorem modifySt_app (f : RunState → RunState) (st : RunState) :
    modifySt f st = .ok () (f st) := rfl

@[simp] theorem getSt_app (st : RunState) : getSt st = .ok st st := rfl

@[simp] theorem setSt_app (s st : RunState) : setSt s st = .ok () s := rfl

@[simp] theorem pure_app {α : Type} (a : α) (st : RunState) :
    (pure a : VTM α) st = .ok a st := rfl

/-- A concrete Sample object for witnesses and counterexamples. -/
def sampleObj : CritsObj :=
  ⟨.Sample, "d41d8cd98f00b204e9800998ecf8427e", "", "", .str "a1", .str "a256",
   "f.exe", "src", "oid1", "untouched"⟩

/-- A concrete Domain object for witnesses and counterexamples. -/
def domainObj : CritsObj :=
  ⟨.Domain, "", "example.com", "", .null, .null, "", "src", "oid2", "untouched"⟩

/-- Environment with the given fetch oracle and upload response; the
pcap endpoint answers json (not available) and both CRITs collaborator
oracles succeed. -/
def mkEnv (fetch : Nat → Option Report) (uploadResp : Report) : Env :=
  ⟨fetch, uploadResp, .json, fun _ => "pcapmd5", fun _ => ⟨true, "ok"⟩,
   fun _ => ⟨true, "ok"⟩⟩

/-! ## Claims -/

/-- C5: for every run whose first fetch yields a (truthy) Report with
response code 0 under an upload-disabled configuration, the run aborts
immediately with the hard-failure error message and produces zero
Findings, no upload, no sleep, no save, no second fetch: the final state
is the initial one plus one fetch and the error line. -/
theorem C5_theorem (key : String) (hk : key.isEmpty = false) (priv pcap : Bool) (w : Nat)
    (env : Env) (r0 : Report) (obj : CritsObj)
    (h0 : env.fetchOracle 0 = some r0)
    (hne : r0.isEmpty = false)
    (hrc : rget r0 "response_code" (.num 0) = .num 0) :
    run env (mkConfig key priv pcap (some false) w) (initState obj) =
      .ok () { initState obj with
               fetchCount := 1,
               errLog := ["Exiting because Virustotal provided a negative response code."] } := by
  simp [run, mkConfig_key, mkConfig_priv, mkConfig_pcap, mkConfig_upl, mkConfig_wait,
    mkConfig_qurl, mkConfig_durl, mkConfig_iurl, pyInt, liftE, bind_app, _get_sample_data,
    initState, truthy, truthyResp, pyEqInt, pyEq, hk, h0, hne, hrc, _error, _info, _sleep,
    modifySt]

/-- C5 witness: the theorem applied at a concrete unknown-status run. -/
theorem C5_witness :
    run (mkEnv (fun _ => some [("response_code", .num 0)]) [])
        (mkConfig "k" false false (some false) 5) (initState sampleObj) =
      .ok () { initState sampleObj with
               fetchCount := 1,
               errLog := ["Exiting because Virustotal provided a negative response code."] } :=
  C5_theorem "k" rfl false false 5 (mkEnv (fun _ => some [("response_code", .num 0)]) [])
    [("response_code", .num 0)] sampleObj rfl rfl rfl

/-- C2: for every run whose first fetch yields a (truthy) Report with
response code -2 (queued), the run logs the wait, sleeps once for
60 times the configured minutes, re-fetches exactly once (final fetch
count 2), and when that re-fetch is not a ready report (none, falsy, or
response code differing from 1) it aborts with the hard failure message;
no Finding is emitted, the Uploader is never called and the object is
never saved. -/
theorem C2_theorem (key : String) (hk : key.isEmpty = false) (priv pcap : Bool)
    (upl : Option Bool) (w : Nat) (env : Env) (r0 : Report) (obj : CritsObj)
    (h0 : env.fetchOracle 0 = some r0)
    (hne : r0.isEmpty = false)
    (hrc : rget r0 "response_code" (.num 0) = .num (-2))
    (h1 : ∀ r1, env.fetchOracle 1 = some r1 →
      pyEqInt (rget r1 "response_code" (.num 0)) 1 = false) :
    run env (mkConfig key priv pcap upl w) (initState obj) =
      .ok () { initState obj with
               fetchCount := 2,
               sleeps := [60 * (w : Int)],
               infoLog := [s!"Waiting {(w : Int)} minutes for VT processing"],
               errLog := ["Getting sample data from VT failed at last!"] } := by
  cases hf1 : env.fetchOracle 1 with
  | none =>
    simp [run, run_refetch, mkConfig_key, mkConfig_priv, mkConfig_pcap, mkConfig_upl,
      mkConfig_wait, mkConfig_qurl, mkConfig_durl, mkConfig_iurl, pyInt, liftE, bind_app,
      _get_sample_data, initState, truthy, truthyResp, pyEqInt, pyEq, hk, h0, hne, hrc, hf1,
      _error, _info, _sleep, modifySt]
  | some r1 =>
    have hr1 := h1 r1 hf1
    simp only [pyEqInt] at hr1
    simp [run, run_refetch, mkConfig_key, mkConfig_priv, mkConfig_pcap, mkConfig_upl,
      mkConfig_wait, mkConfig_qurl, mkConfig_durl, mkConfig_iurl, pyInt, liftE, bind_app,
      _get_sample_data, initState, truthy, truthyResp, pyEqInt, pyEq, hk, h0, hne, hrc, hf1,
      hr1, _error, _info, _sleep, modifySt]

/-- C2 witness: a concrete queued run whose re-fetch is still unknown. -/
theorem C2_witness :
    run (mkEnv (fun n => if n = 0 then some [("response_code", .num (-2))]
          else some [("response_code", .num 0)]) [])
        (mkConfig "k" false false none 5) (initState sampleObj) =
      .ok () { initState sampleObj with
               fetchCount := 2,
               sleeps := [300],
               infoLog := ["Waiting 5 minutes for VT processing"],
               errLog := ["Getting sample data from VT failed at last!"] } :=
  C2_theorem "k" rfl false false none 5
    (mkEnv (fun n => if n = 0 then some [("response_code", .num (-2))]
      else some [("response_code", .num 0)]) [])
    [("response_code", .num (-2))] sampleObj rfl rfl rfl
    (fun r1 h => by
      rw [show r1 = [("response_code", JVal.num 0)] from (Option.some.inj h).symm]
      decide)

/-- First-fetch report with status 0 used by the C3 run. -/
def c3r0 : Report := [("response_code", .num 0)]

/-- The first re-fetch answer of the C3 run (already ready, would carry
one URL finding for http://first). -/
def c3r1 : Report :=
  [("response_code", .num 1), ("detected_urls", .arr [.obj [("url", .str "http://first")]])]

/-- The second re-fetch answer of the C3 run (url http://second). -/
def c3r2 : Report :=
  [("response_code", .num 1), ("detected_urls", .arr [.obj [("url", .str "http://second")]])]

/-- Environment of the C3 counterexample: unknown, then two distinct
ready reports; the upload submission is accepted. -/
def c3env : Env :=
  mkEnv (fun n => if n = 0 then some c3r0 else if n = 1 then some c3r1 else some c3r2)
    [("response_code", .num 1)]

/-- C3 counterexample: a Domain run whose first fetch is unknown under an
upload-enabled configuration, whose upload succeeds and whose re-fetches
are ready. The claim says the workflow re-fetches exactly once after the
sleep, so the final fetch count would be 2; the code issues the line 189
re-fetch and then the line 195 re-fetch, ending at fetch count 3, and the
normalized URLs finding comes from the SECOND re-fetch (http://second),
the first being discarded. -/
theorem C3_counterexample :
    (finalState (run c3env (mkConfig "k" false false (some true) 5)
        (initState domainObj))).fetchCount = 3 ∧
    (finalState (run c3env (mkConfig "k" false false (some true) 5)
        (initState domainObj))).results.map Finding.label = [.str "http://second"] ∧
    (3 : Nat) ≠ 2 := by
  refine ⟨rfl, rfl, by decide⟩

/-- C3 amended: for every run on a Sample whose first fetch yields a
truthy status-0 Report under an upload-enabled configuration, the
workflow calls the Uploader once; on Uploader failure (submission
response not ready, with a string verbose message) the run aborts at once
with no sleep and no re-fetch; on Uploader success it sleeps once and
then re-fetches TWICE, not once (the line 189 fetch whose result is
discarded, then the line 195 fetch), aborting when the second re-fetch is
not ready. The Normalizer is never invoked in the aborting cases. -/
theorem C3_amended (key : String) (hk : key.isEmpty = false) (priv pcap : Bool)
    (w : Nat) (env : Env) (r0 : Report) (obj : CritsObj) (msg : String)
    (hty : obj.crits_type = .Sample)
    (h0 : env.fetchOracle 0 = some r0)
    (hne : r0.isEmpty = false)
    (hrc : rget r0 "response_code" (.num 0) = .num 0) :
    (pyEqInt (rget env.uploadResp "response_code" (.num 0)) 1 = false →
      getItemL env.uploadResp "verbose_msg" = .ok (.str msg) →
      run env (mkConfig key priv pcap (some true) w) (initState obj) =
        .ok () { initState obj with
                 fetchCount := 1,
                 uploadCalls := 1,
                 errLog := ["Exiting because Virustotal did not know the sample AND we couldn\x27t upload it. Msg.: " ++ msg] }) ∧
    (pyEqInt (rget env.uploadResp "response_code" (.num 0)) 1 = true →
      (∀ r2, env.fetchOracle 2 = some r2 →
        pyEqInt (rget r2 "response_code" (.num 0)) 1 = false) →
      run env (mkConfig key priv pcap (some true) w) (initState obj) =
        .ok () { initState obj with
                 fetchCount := 3,
                 uploadCalls := 1,
                 sleeps := [60 * (w : Int)],
                 infoLog := [s!"Waiting {(w : Int)} minutes for VT processing"],
                 errLog := ["Getting sample data from VT failed at last!"] }) := by
  constructor
  · intro hur hvm
    simp [run, _upload_sample, mkConfig_key, mkConfig_priv, mkConfig_pcap, mkConfig_upl,
      mkConfig_wait, mkConfig_qurl, mkConfig_durl, mkConfig_iurl, pyInt, liftE, bind_app,
      _get_sample_data, initState, truthy, truthyResp, pyEqInt, pyEq, hk, h0, hne, hrc,
      hty, hvm, pyAddStr, _error, _info, _sleep, modifySt, getSt, map_app] at hur ⊢
    simp [hur]
  · intro hur h2
    simp only [pyEqInt] at hur
    cases hf2 : env.fetchOracle 2 with
    | none =>
      simp [run, run_refetch, _upload_sample, mkConfig_key, mkConfig_priv, mkConfig_pcap,
        mkConfig_upl, mkConfig_wait, mkConfig_qurl, mkConfig_durl, mkConfig_iurl, pyInt,
        liftE, bind_app, map_app, _get_sample_data, initState, truthy, truthyResp, pyEqInt,
        pyEq, hk, h0, hne, hrc, hty, hur, hf2, _error, _info, _sleep, modifySt, getSt]
    | some r2 =>
      have hr2 := h2 r2 hf2
      simp only [pyEqInt] at hr2
      simp [run, run_refetch, _upload_sample, mkConfig_key, mkConfig_priv, mkConfig_pcap,
        mkConfig_upl, mkConfig_wait, mkConfig_qurl, mkConfig_durl, mkConfig_iurl, pyInt,
        liftE, bind_app, map_app, _get_sample_data, initState, truthy, truthyResp, pyEqInt,
        pyEq, hk, h0, hne, hrc, hty, hur, hf2, hr2, _error, _info, _sleep, modifySt, getSt]

/-- C3 witness: both amended branches at concrete inputs (an upload the
remote rejects, and an accepted upload whose second re-fetch is still
not ready). -/
theorem C3_witness :
    (run (mkEnv (fun _ => some [("response_code", .num 0)])
          [("response_code", .num 0), ("verbose_msg", .str "nope")])
        (mkConfig "k" false false (some true) 5) (initState sampleObj) =
      .ok () { initState sampleObj with
               fetchCount := 1,
               uploadCalls := 1,
               errLog := ["Exiting because Virustotal did not know the sample AND we couldn\x27t upload it. Msg.: nope"] }) ∧
    (run (mkEnv (fun _ => some [("response_code", .num 0)]) [("response_code", .num 1)])
        (mkConfig "k" false false (some true) 5) (initState sampleObj) =
      .ok () { initState sampleObj with
               fetchCount := 3,
               uploadCalls := 1,
               sleeps := [300],
               infoLog := ["Waiting 5 minutes for VT processing"],
               errLog := ["Getting sample data from VT failed at last!"] }) := by
  constructor
  · exact (C3_amended "k" rfl false false 5
      (mkEnv (fun _ => some [("response_code", .num 0)])
        [("response_code", .num 0), ("verbose_msg", .str "nope")])
      [("response_code", .num 0)] sampleObj "nope" rfl rfl rfl rfl).1 rfl rfl
  · exact (C3_amended "k" rfl false false 5
      (mkEnv (fun _ => some [("response_code", .num 0)]) [("response_code", .num 1)])
      [("response_code", .num 0)] sampleObj "unused" rfl rfl rfl rfl).2 rfl
      (fun r2 h => by
        rw [show r2 = [("response_code", JVal.num 0)] from (Option.some.inj h).symm]
        decide)

theorem lookup_append (l l2 : PyDict) (k : String) :
    (l ++ l2).lookup k = ((l.lookup k).or (l2.lookup k)) := by
  induction l with
  | nil => simp
  | cons p rest ih =>
    obtain ⟨k2, v2⟩ := p
    simp only [List.cons_append, List.lookup]
    cases hk : (k == k2) <;> simp [ih]

theorem setDefault_lookup_absent (config : PyDict) (k : String) (v : JVal)
    (h : config.lookup k = none) :
    (setDefault config k v).lookup k = some v := by
  simp only [setDefault, h, lookup_append, List.lookup]
  simp

theorem setDefault_lookup_ne (config : PyDict) (k k2 : String) (v : JVal)
    (h : (k2 == k) = false) :
    (setDefault config k v).lookup k2 = config.lookup k2 := by
  simp only [setDefault]
  cases hc : config.lookup k with
  | some w => rfl
  | none =>
    rw [lookup_append]
    simp [List.lookup, h]

theorem setKey_lookup_ne (config : PyDict) (k k2 : String) (v : JVal)
    (h : (k2 == k) = false) :
    (setKey config k v).lookup k2 = config.lookup k2 := by
  induction config with
  | nil => simp [setKey, List.lookup, h]
  | cons p rest ih =>
    obtain ⟨k3, v3⟩ := p
    simp only [setKey]
    cases hk : (k3 == k) with
    | true =>
      have hk3 : k3 = k := by simpa using hk
      have h23 : (k2 == k3) = false := by rw [hk3]; exact h
      simp [List.lookup, hk, h, h23]
    | false =>
      simp only [hk, Bool.false_eq_true, if_false, List.lookup]
      cases (k2 == k3) <;> simp [ih]

theorem ebind_ok {α β : Type} (a : α) (f : α → Except PyErr β) :
    (Except.ok a >>= f) = f a := rfl

theorem ebind_err {α β : Type} (e : PyErr) (f : α → Except PyErr β) :
    ((Except.error e : Except PyErr α) >>= f) = Except.error e := rfl

/-- C10: the upload-unknown-sample option defaults inconsistently. At the
`run` interface (line 153) an absent `vt_upload_unknown_sample` defaults
to True, so a status-0 report under an option-absent configuration
triggers an upload attempt (upload counter 1, and the abort message is
the upload-failure one, not the immediate negative-response abort), while
`bind_runtime_form` (lines 50-51) defaults the same absent option to
False in the config dict it binds. -/
theorem C10_theorem (key : String) (hk : key.isEmpty = false) (priv pcap : Bool)
    (w : Nat) (env : Env) (r0 : Report) (obj : CritsObj) (msg : String)
    (hty : obj.crits_type = .Sample)
    (h0 : env.fetchOracle 0 = some r0)
    (hne : r0.isEmpty = false)
    (hrc : rget r0 "response_code" (.num 0) = .num 0)
    (hur : pyEqInt (rget env.uploadResp "response_code" (.num 0)) 1 = false)
    (hvm : getItemL env.uploadResp "verbose_msg" = .ok (.str msg)) :
    (∀ config : PyDict, config.lookup "vt_upload_unknown_sample" = none →
      ∀ c2, bind_runtime_form_config config = .ok c2 →
        c2.lookup "vt_upload_unknown_sample" = some (.bool false)) ∧
    run env (mkConfig key priv pcap none w) (initState obj) =
      .ok () { initState obj with
               fetchCount := 1,
               uploadCalls := 1,
               errLog := ["Exiting because Virustotal did not know the sample AND we couldn\x27t upload it. Msg.: " ++ msg] } := by
  constructor
  · intro config hnone c2 hbind
    have h1 : (setDefault config "vt_add_pcap" (.bool false)).lookup
        "vt_upload_unknown_sample" = none := by
      rw [setDefault_lookup_ne _ _ _ _ (by decide)]; exact hnone
    have h2 : (setDefault (setDefault config "vt_add_pcap" (.bool false))
        "vt_add_domains" (.bool false)).lookup "vt_upload_unknown_sample" = none := by
      rw [setDefault_lookup_ne _ _ _ _ (by decide)]; exact h1
    have h3 : (setDefault (setDefault (setDefault config "vt_add_pcap" (.bool false))
        "vt_add_domains" (.bool false)) "vt_upload_unknown_sample"
        (.bool false)).lookup "vt_upload_unknown_sample" = some (.bool false) :=
      setDefault_lookup_absent _ _ _ h2
    cases hw : getItemL (setDefault (setDefault (setDefault config "vt_add_pcap"
        (.bool false)) "vt_add_domains" (.bool false)) "vt_upload_unknown_sample"
        (.bool false)) "vt_wait_for_processing" with
    | error e =>
      rw [bind_runtime_form_config, hw, ebind_err] at hbind
      exact absurd hbind (by simp)
    | ok wv =>
      cases hw0 : pyIndex0 wv with
      | error e =>
        rw [bind_runtime_form_config, hw, ebind_ok, hw0, ebind_err] at hbind
        exact absurd hbind (by simp)
      | ok w0 =>
        rw [bind_runtime_form_config, hw, ebind_ok, hw0, ebind_ok] at hbind
        have hc2 : c2 = setKey (setDefault (setDefault (setDefault config
            "vt_add_pcap" (.bool false)) "vt_add_domains" (.bool false))
            "vt_upload_unknown_sample" (.bool false)) "vt_wait_for_processing"
            (.str (pyStr w0)) := by
          simpa [pure, Except.pure] using hbind.symm
        rw [hc2, setKey_lookup_ne _ _ _ _ (by decide)]
        exact h3
  · simp [run, _upload_sample, mkConfig_key, mkConfig_priv, mkConfig_pcap, mkConfig_upl,
      mkConfig_wait, mkConfig_qurl, mkConfig_durl, mkConfig_iurl, pyInt, liftE, bind_app,
      map_app, _get_sample_data, initState, truthy, truthyResp, pyEqInt, pyEq, hk, h0, hne,
      hrc, hty, hvm, pyAddStr, _error, _info, _sleep, modifySt, getSt] at hur ⊢
    simp [hur]

/-- C10 witness: the binder defaults an absent upload flag to False while
the same absent option makes a concrete status-0 Sample run attempt the
upload (which the remote rejects) instead of aborting immediately. -/
theorem C10_witness :
    ((bind_runtime_form_config [("vt_wait_for_processing", .arr [.num 5])]).map
      (fun c2 => c2.lookup "vt_upload_unknown_sample") = .ok (some (.bool false))) ∧
    run (mkEnv (fun _ => some [("response_code", .num 0)])
          [("response_code", .num 0), ("verbose_msg", .str "rejected")])
        (mkConfig "k" false false none 5) (initState sampleObj) =
      .ok () { initState sampleObj with
               fetchCount := 1,
               uploadCalls := 1,
               errLog := ["Exiting because Virustotal did not know the sample AND we couldn\x27t upload it. Msg.: rejected"] } := by
  have h := C10_theorem "k" rfl false false 5
    (mkEnv (fun _ => some [("response_code", .num 0)])
      [("response_code", .num 0), ("verbose_msg", .str "rejected")])
    [("response_code", .num 0)] sampleObj "rejected" rfl rfl rfl rfl rfl rfl
  refine ⟨?_, h.2⟩
  have hb := h.1 [("vt_wait_for_processing", .arr [.num 5])] rfl
  have hcfg : bind_runtime_form_config [("vt_wait_for_processing", .arr [.num 5])] =
      .ok [("vt_wait_for_processing", .str "5"), ("vt_add_pcap", .bool false),
           ("vt_add_domains", .bool false), ("vt_upload_unknown_sample", .bool false)] := rfl
  rw [hcfg]
  rw [hcfg] at hb
  have := hb _ rfl
  simp only [Except.map, this]

/-- The C8 scenario report from the spec. -/
def c8report : Report :=
  [("detected_urls", .arr [.obj [("url", .str "http://x"), ("scan_date", .str "d"),
      ("total", .num 10), ("positives", .num 2)]]),
   ("resolutions", .arr []),
   ("categories", .arr [.str "malware"])]

/-- The two findings the C8 report must produce, in order. -/
def c8findings : List Finding :=
  [⟨"URLs", .str "http://x",
    .obj [("scan_date", .str "d"), ("total", .num 10), ("positives", .num 2)]⟩,
   ⟨"Categories", .str "malware", .obj []⟩]

/-- The soft-failure messages of the C8 run: the empty resolutions list
and the four absent sample sections, in processing order. -/
def c8msgs : List String :=
  ["Resolution information not included in VT response.",
   "Detected communicating sample information not included in VT response.",
   "Undetected communicating sample information not included in VT response.",
   "Downloaded sample information not included in VT response.",
   "Undetected domain sample information not included in VT response."]

/-- The joined soft-failure message of the C8 run. -/
def c8msg : String := String.intercalate "\n" c8msgs

/-- C8: the Domain report {detected_urls: [{url: http://x, scan_date: d,
total: 10, positives: 2}], resolutions: [], categories: [malware]}
produces exactly one URLs Finding labelled http://x with detail
{scan_date: d, total: 10, positives: 2} and one Categories Finding
labelled malware; the returned status is a soft failure whose message
lines include the one naming the resolutions section; and a full run on
this report (made ready) ends normally with those two findings recorded,
the message surfaced as an info line: partial success, no abort. -/
theorem C8_theorem :
    (_process_public_domain c8report (initState domainObj) =
      .ok ⟨false, c8msg⟩ { initState domainObj with results := c8findings }) ∧
    c8msg = String.intercalate "\n" c8msgs ∧
    "Resolution information not included in VT response." ∈ c8msgs ∧
    run (mkEnv (fun _ => some (("response_code", .num 1) :: c8report)) [])
        (mkConfig "k" false false (some false) 5) (initState domainObj) =
      .ok () { initState domainObj with
               results := c8findings,
               infoLog := [c8msg],
               fetchCount := 1 } := by
  refine ⟨rfl, rfl, List.mem_cons_self _ _, rfl⟩

/-- The privileged behaviour block of the C7 scenario: one DNS entry with
a truthy hostname. -/
def c7behaviour : JVal :=
  .obj [("behaviour-v1", .obj [("network", .obj [("dns", .arr
    [.obj [("hostname", .str "evil.com"), ("ip", .str "1.2.3.4")]])])])]

/-- A ready privileged report whose behaviour DNS yields a hostname. -/
def c7report : Report :=
  [("response_code", .num 1), ("sha1", .str "s1"), ("sha256", .str "s2"),
   ("additional_info", c7behaviour)]

/-- Environment of the C7 run. -/
def c7env : Env := mkEnv (fun _ => some c7report) []

/-- C7: on a behaviour DNS entry with a truthy hostname the code calls
`self._process_domain(...)`, but `_process_domain` is defined at module
level (line 870 sits at column 0, outside the class body), so the
attribute lookup raises AttributeError: the behaviour processor raises
after emitting the DNS finding, the whole privileged Sample run aborts
with that exception, and the domain-upsert collaborator and the
relationship creation are NEVER reached - the failure propagates instead
of being recorded as a soft failure. The module-level function itself,
run as written, would upsert the domain, add the Related_To relationship
dated by the scan date and soft-log collaborator failures, which is the
spec intent. -/
theorem C7_bug :
    (_process_private_sample_behaviour c7report (.str "2016-01-01")
        (initState sampleObj) =
      .error .attributeError
        { initState sampleObj with
          results := [⟨"VirusTotal Behaviour DNS", .str "evil.com",
            .obj [("IP_Address", .str "1.2.3.4")]⟩] }) ∧
    errOf (run c7env (mkConfig "k" true false (some false) 5) (initState sampleObj)) =
      some .attributeError ∧
    (finalState (run c7env (mkConfig "k" true false (some false) 5)
        (initState sampleObj))).domainUpserts = [] ∧
    (finalState (run c7env (mkConfig "k" true false (some false) 5)
        (initState sampleObj))).relsAdded = [] ∧
    (_process_domain c7env (.str "evil.com") (.str "1.2.3.4") (.str "2016-01-01")
        (initState sampleObj) =
      .ok () { initState sampleObj with
               infoLog := ["Adding domain evil.com and creating relationship to oid1"],
               notifyCount := 1,
               domainUpserts := ["evil.com"],
               relsAdded := [⟨"evil.com", "Related_To", .str "2016-01-01",
                 "Provided by VirusTotal. Date is from when vt analysis was performed"⟩],
               domainSaves := 1,
               objSaves := 1 }) := by
  refine ⟨rfl, rfl, rfl, rfl, rfl⟩

/-- C1 counterexample: two fields the Normalizer reads WITHOUT a
default-on-missing policy. `_process_hashes` subscripts `report[sha1]`
directly, so a report without that field raises KeyError (with no state
change); and `_process_public_sample` subscripts `scans[scan][result]`
directly, so a truthy scans section whose engine entry lacks `result`
raises KeyError after the header findings were emitted. Both refute the
claim that every field is read with a default so absence never raises. -/
theorem C1_counterexample :
    (_process_hashes [] (initState sampleObj) =
      .error (.keyError "sha1") (initState sampleObj)) ∧
    errOf (_process_public_sample [("scans", .obj [("TestEngine", .obj [])])]
        (initState sampleObj)) = some (.keyError "result") := by
  refine ⟨rfl, rfl⟩

/-- C1 amended: the SECTION-level part of the claim holds for the public
sample processor: whenever the scans section is absent or otherwise falsy
(and the ratio fields format, which the direct `%d` use needs), the
processor never raises; it still emits the header stats and permalink
findings, emits no av-result finding, returns a soft failure whose
message names the missing scan section, and leaves every other part of
the state alone. The FIELD-level part of the claim is false (see the
counterexample): the hash backfill and the per-engine result field are
read with direct subscripts. -/
theorem C1_theorem (report : Report) (st : RunState) (ps ts : String)
    (hscans : truthy (rget report "scans" (.arr [])) = false)
    (hp : pyFmtD (rget report "positives" (.num 0)) = .ok ps)
    (ht : pyFmtD (rget report "total" (.num 0)) = .ok ts) :
    ∃ status : PubStatus,
      _process_public_sample report st =
        .ok status
          { st with results := st.results ++
              [⟨"stats", .str (ps ++ " / " ++ ts),
                .obj [("scan_date", rget report "scan_date" (.str "")),
                      ("positives", rget report "positives" (.num 0)),
                      ("total", rget report "total" (.num 0))]⟩,
               ⟨"permalink", rget report "permalink" (.str "No link"), .null⟩] } ∧
      status.success = false ∧
      (status.message = "Scan data not included in VT response." ∨
       status.message =
         "No verbose message provided by VT.\nScan data not included in VT response.") := by
  cases hv : truthy (rget report "verbose_msg" (.bool false)) with
  | true =>
    refine ⟨⟨false, "Scan data not included in VT response.",
      rget report "scan_date" (.str "")⟩, ?_, rfl, Or.inl rfl⟩
    simp [_process_public_sample, _process_public_sample_scans, scansSectionMsgs,
      hp, ht, hv, hscans, _add_result, modifySt, String.intercalate]
    rfl
  | false =>
    refine ⟨⟨false,
      "No verbose message provided by VT.\nScan data not included in VT response.",
      rget report "scan_date" (.str "")⟩, ?_, rfl, Or.inr rfl⟩
    simp [_process_public_sample, _process_public_sample_scans, scansSectionMsgs,
      hp, ht, hv, hscans, _add_result, modifySt, String.intercalate]
    rfl

/-- C1 witness: the amended theorem at the empty report. -/
theorem C1_witness :
    ∃ status : PubStatus,
      _process_public_sample [] (initState sampleObj) =
        .ok status
          { initState sampleObj with results :=
              [⟨"stats", .str "0 / 0",
                .obj [("scan_date", .str ""), ("positives", .num 0), ("total", .num 0)]⟩,
               ⟨"permalink", .str "No link", .null⟩] } ∧
      status.success = false ∧
      (status.message = "Scan data not included in VT response." ∨
       status.message =
         "No verbose message provided by VT.\nScan data not included in VT response.") :=
  C1_theorem [] (initState sampleObj) "0" "0" rfl rfl rfl

theorem frames_result {α : Type} {m : VTM α} (hm : Frames m) {st st3 : RunState}
    {a : α} (h : m st = .ok a st3) : stateFrame st st3 := by
  have h2 := hm st
  rw [h] at h2
  exact h2

theorem frames_result_err {α : Type} {m : VTM α} (hm : Frames m) {st st3 : RunState}
    {e : PyErr} (h : m st = .error e st3) : stateFrame st st3 := by
  have h2 := hm st
  rw [h] at h2
  exact h2

/-- Header lemma of `_process_public_sample`: whenever the two ratio
fields format, the processor - ending normally or raising later in the
scans walk - has emitted the stats finding (labelled ps / ts) and the
permalink finding first, only appended further findings after them, and
left uploads, saves, the object, fetches and sleeps alone. -/
theorem public_sample_stats (report : Report) (ps ts : String)
    (hp : pyFmtD (rget report "positives" (.num 0)) = .ok ps)
    (ht : pyFmtD (rget report "total" (.num 0)) = .ok ts) (st : RunState) :
    ∃ l, (finalState (_process_public_sample report st)).results =
        st.results ++ ⟨"stats", .str (ps ++ " / " ++ ts),
          .obj [("scan_date", rget report "scan_date" (.str "")),
                ("positives", rget report "positives" (.num 0)),
                ("total", rget report "total" (.num 0))]⟩ ::
          ⟨"permalink", rget report "permalink" (.str "No link"), .null⟩ :: l ∧
      (finalState (_process_public_sample report st)).uploadCalls = st.uploadCalls ∧
      (finalState (_process_public_sample report st)).objSaves = st.objSaves ∧
      (finalState (_process_public_sample report st)).obj = st.obj ∧
      (finalState (_process_public_sample report st)).fetchCount = st.fetchCount ∧
      (finalState (_process_public_sample report st)).sleeps = st.sleeps := by
  cases hres : _process_public_sample report st with
  | ok status st3 =>
    simp only [_process_public_sample, hp, ht, liftE_ok_app, bind_app, resCase_ok,
      _add_result, modifySt_app] at hres
    have hfr := frames_result (frames_public_sample_scans report _ _) hres
    obtain ⟨⟨l, hl⟩, hu, ho, hob, hf, hs⟩ := hfr
    refine ⟨l, ?_, ?_, ?_, ?_, ?_, ?_⟩ <;>
      simp_all [finalState, List.append_assoc]
  | error e st3 =>
    simp only [_process_public_sample, hp, ht, liftE_ok_app, bind_app, resCase_ok,
      _add_result, modifySt_app] at hres
    have hfr := frames_result_err (frames_public_sample_scans report _ _) hres
    obtain ⟨⟨l, hl⟩, hu, ho, hob, hf, hs⟩ := hfr
    refine ⟨l, ?_, ?_, ?_, ?_, ?_, ?_⟩ <;>
      simp_all [finalState, List.append_assoc]

/-- The `_process_hashes` under present hash fields never raises, and leaves
results, uploads, fetches and sleeps alone (only the object hashes and
the save counter may change). -/
theorem _process_hashes_ok (report : Report) (s1 s2 : JVal)
    (h1 : getItemL report "sha1" = .ok s1)
    (h2 : getItemL report "sha256" = .ok s2) (st : RunState) :
    ∃ st2, _process_hashes report st = .ok () st2 ∧
      st2.results = st.results ∧ st2.uploadCalls = st.uploadCalls ∧
      st2.fetchCount = st.fetchCount ∧ st2.sleeps = st.sleeps ∧
      st2.infoLog = st.infoLog ∧ st2.errLog = st.errLog := by
  cases d1 : pyEq st.obj.sha1 s1 with
  | false =>
    cases d2 : pyEq st.obj.sha256 s2 with
    | false =>
      refine ⟨{ st with obj := { st.obj with sha1 := s1, sha256 := s2 },
                        objSaves := st.objSaves + 1 }, ?_, rfl, rfl, rfl, rfl, rfl, rfl⟩
      simp [_process_hashes, h1, h2, d1, d2]
    | true =>
      refine ⟨{ st with obj := { st.obj with sha1 := s1 },
                        objSaves := st.objSaves + 1 }, ?_, rfl, rfl, rfl, rfl, rfl, rfl⟩
      simp [_process_hashes, h1, h2, d1, d2]
  | true =>
    cases d2 : pyEq st.obj.sha256 s2 with
    | false =>
      refine ⟨{ st with obj := { st.obj with sha256 := s2 },
                        objSaves := st.objSaves + 1 }, ?_, rfl, rfl, rfl, rfl, rfl, rfl⟩
      simp [_process_hashes, h1, h2, d1, d2]
    | true =>
      refine ⟨st, ?_, rfl, rfl, rfl, rfl, rfl, rfl⟩
      simp [_process_hashes, h1, h2, d1, d2]

/-- The `_process_hashes` when both stored hashes differ from the report:
both fields are updated, exactly one save is issued, and nothing else of
the object or the state changes. -/
theorem _process_hashes_both_differ (report : Report) (s1 s2 : JVal)
    (h1 : getItemL report "sha1" = .ok s1)
    (h2 : getItemL report "sha256" = .ok s2) (st : RunState)
    (d1 : pyEq st.obj.sha1 s1 = false) (d2 : pyEq st.obj.sha256 s2 = false) :
    _process_hashes report st = .ok ()
      { st with obj := { st.obj with sha1 := s1, sha256 := s2 },
                objSaves := st.objSaves + 1 } := by
  simp [_process_hashes, h1, h2, d1, d2]

/-- The `_process_hashes` when both stored hashes already match: no update
and no save at all. -/
theorem _process_hashes_both_match (report : Report) (s1 s2 : JVal)
    (h1 : getItemL report "sha1" = .ok s1)
    (h2 : getItemL report "sha256" = .ok s2) (st : RunState)
    (d1 : pyEq st.obj.sha1 s1 = true) (d2 : pyEq st.obj.sha256 s2 = true) :
    _process_hashes report st = .ok () st := by
  simp [_process_hashes, h1, h2, d1, d2]

/-- A run whose first fetch is ready goes straight to the processing
dispatch, with only the fetch counter advanced. -/
theorem run_ready (key : String) (hk : key.isEmpty = false) (priv pcap : Bool)
    (upl : Option Bool) (w : Nat) (env : Env) (r0 : Report) (obj : CritsObj)
    (h0 : env.fetchOracle 0 = some r0)
    (hrc : rget r0 "response_code" (.num 0) = .num 1) :
    run env (mkConfig key priv pcap upl w) (initState obj) =
      run_process env (mkConfig key priv pcap upl w) r0
        { initState obj with fetchCount := 1 } := by
  have hne : r0.isEmpty = false := by
    cases r0 with
    | nil => simp [rget, List.lookup] at hrc
    | cons p rest => rfl
  simp [run, mkConfig_key, mkConfig_priv, mkConfig_pcap, mkConfig_upl, mkConfig_wait,
    mkConfig_qurl, mkConfig_durl, mkConfig_iurl, pyInt, _get_sample_data, initState,
    truthy, truthyResp, pyEqInt, pyEq, hk, h0, hne, hrc]

/-- The ready-report Sample processing: provided the hash fields are
present and the ratio fields format, the dispatch always emits the stats
and permalink findings first (whatever happens later), never calls the
Uploader, and never fetches or sleeps. -/
theorem run_process_sample_stats (env : Env) (cfg : Config) (r0 : Report)
    (s1 s2 : JVal) (ps ts : String)
    (h1 : getItemL r0 "sha1" = .ok s1)
    (h2 : getItemL r0 "sha256" = .ok s2)
    (hp : pyFmtD (rget r0 "positives" (.num 0)) = .ok ps)
    (ht : pyFmtD (rget r0 "total" (.num 0)) = .ok ts)
    (ST : RunState) (hct : ST.obj.crits_type = .Sample) :
    ∃ l, (finalState (run_process env cfg r0 ST)).results =
        ST.results ++ ⟨"stats", .str (ps ++ " / " ++ ts),
          .obj [("scan_date", rget r0 "scan_date" (.str "")),
                ("positives", rget r0 "positives" (.num 0)),
                ("total", rget r0 "total" (.num 0))]⟩ ::
          ⟨"permalink", rget r0 "permalink" (.str "No link"), .null⟩ :: l ∧
      (finalState (run_process env cfg r0 ST)).uploadCalls = ST.uploadCalls ∧
      (finalState (run_process env cfg r0 ST)).fetchCount = ST.fetchCount ∧
      (finalState (run_process env cfg r0 ST)).sleeps = ST.sleeps := by
  obtain ⟨st2, heq, hres2, hupl2, hfc2, hsl2, _, _⟩ :=
    _process_hashes_ok r0 s1 s2 h1 h2 ST
  simp only [run_process, bind_app, getSt_app, resCase_ok, hct]
  rw [heq]
  simp only [resCase_ok]
  obtain ⟨l, hl, hu, ho, hob, hf, hs⟩ := public_sample_stats r0 ps ts hp ht st2
  simp only [bind_app]
  cases hps : _process_public_sample r0 st2 with
  | ok resp st3 =>
    simp only [hps, finalState] at hl hu ho hob hf hs
    simp only [resCase_ok]
    obtain ⟨⟨l2, hl2⟩, hu2, ho2, hob2, hf2, hs2⟩ :=
      frames_sample_post env cfg r0 resp st3
    refine ⟨l ++ l2, ?_, ?_, ?_, ?_⟩
    · rw [hl2, hl, hres2]
      simp [List.append_assoc]
    · rw [hu2, hu, hupl2]
    · rw [hf2, hf, hfc2]
    · rw [hs2, hs, hsl2]
  | error e st3 =>
    simp only [hps, finalState] at hl hu ho hob hf hs
    simp only [resCase_err]
    refine ⟨l, ?_, ?_, ?_, ?_⟩
    · simp only [finalState]
      rw [hl, hres2]
    · simp only [finalState]
      rw [hu, hupl2]
    · simp only [finalState]
      rw [hf, hfc2]
    · simp only [finalState]
      rw [hs, hsl2]

/-- C4 amended: for every run whose first fetch yields a ready Report
(response code 1), the workflow proceeds directly to normalization (one
fetch, no sleep) and never invokes the Uploader; PROVIDED the ready
report carries the sha1 and sha256 fields (the hash backfill subscripts
them directly, see the counterexample) and its positives/total fields
format, the run also produces the header stats Finding (first, labelled
"positives / total") and the permalink Finding for Sample indicators. -/
theorem C4_theorem (key : String) (hk : key.isEmpty = false) (priv pcap : Bool)
    (upl : Option Bool) (w : Nat) (env : Env) (r0 : Report) (obj : CritsObj)
    (s1 s2 : JVal) (ps ts : String)
    (hty : obj.crits_type = .Sample)
    (h0 : env.fetchOracle 0 = some r0)
    (hrc : rget r0 "response_code" (.num 0) = .num 1)
    (h1 : getItemL r0 "sha1" = .ok s1)
    (h2 : getItemL r0 "sha256" = .ok s2)
    (hp : pyFmtD (rget r0 "positives" (.num 0)) = .ok ps)
    (ht : pyFmtD (rget r0 "total" (.num 0)) = .ok ts) :
    ∃ l, (finalState (run env (mkConfig key priv pcap upl w) (initState obj))).results =
        ⟨"stats", .str (ps ++ " / " ++ ts),
          .obj [("scan_date", rget r0 "scan_date" (.str "")),
                ("positives", rget r0 "positives" (.num 0)),
                ("total", rget r0 "total" (.num 0))]⟩ ::
          ⟨"permalink", rget r0 "permalink" (.str "No link"), .null⟩ :: l ∧
      (finalState (run env (mkConfig key priv pcap upl w) (initState obj))).uploadCalls = 0 ∧
      (finalState (run env (mkConfig key priv pcap upl w) (initState obj))).fetchCount = 1 ∧
      (finalState (run env (mkConfig key priv pcap upl w) (initState obj))).sleeps = [] := by
  rw [run_ready key hk priv pcap upl w env r0 obj h0 hrc]
  obtain ⟨l, hl, hu, hf, hs⟩ := run_process_sample_stats env
    (mkConfig key priv pcap upl w) r0 s1 s2 ps ts h1 h2 hp ht
    ({ initState obj with fetchCount := 1 }) (by simp [initState, hty])
  refine ⟨l, ?_, ?_, ?_, ?_⟩
  · rw [hl]
    try simp [initState]
  · rw [hu]
    try simp [initState]
  · rw [hf]
    try simp [initState]
  · rw [hs]
    try simp [initState]

/-- C4 counterexample: a ready Sample report WITHOUT a sha1 field makes
the run raise KeyError in the hash backfill before any Finding is
emitted: the claim that every ready run produces at least the stats
Finding is false as stated (the no-Uploader half still holds: the final
state shows zero upload calls). -/
theorem C4_counterexample :
    run (mkEnv (fun _ => some [("response_code", .num 1), ("positives", .num 3),
          ("total", .num 57)]) [])
        (mkConfig "k" false false (some false) 5) (initState sampleObj) =
      .error (.keyError "sha1") { initState sampleObj with fetchCount := 1 } := rfl

/-- C4 witness: the amended theorem at a concrete ready report carrying
both hashes. -/
theorem C4_witness :
    ∃ l, (finalState (run (mkEnv (fun _ => some [("response_code", .num 1),
            ("sha1", .str "s1"), ("sha256", .str "s2")]) [])
          (mkConfig "k" false false (some false) 5) (initState sampleObj))).results =
        ⟨"stats", .str "0 / 0",
          .obj [("scan_date", .str ""), ("positives", .num 0), ("total", .num 0)]⟩ ::
          ⟨"permalink", .str "No link", .null⟩ :: l ∧
      (finalState (run (mkEnv (fun _ => some [("response_code", .num 1),
            ("sha1", .str "s1"), ("sha256", .str "s2")]) [])
          (mkConfig "k" false false (some false) 5) (initState sampleObj))).uploadCalls = 0 ∧
      (finalState (run (mkEnv (fun _ => some [("response_code", .num 1),
            ("sha1", .str "s1"), ("sha256", .str "s2")]) [])
          (mkConfig "k" false false (some false) 5) (initState sampleObj))).fetchCount = 1 ∧
      (finalState (run (mkEnv (fun _ => some [("response_code", .num 1),
            ("sha1", .str "s1"), ("sha256", .str "s2")]) [])
          (mkConfig "k" false false (some false) 5) (initState sampleObj))).sleeps = [] :=
  C4_theorem "k" rfl false false (some false) 5
    (mkEnv (fun _ => some [("response_code", .num 1), ("sha1", .str "s1"),
      ("sha256", .str "s2")]) [])
    [("response_code", .num 1), ("sha1", .str "s1"), ("sha256", .str "s2")] sampleObj
    (.str "s1") (.str "s2") "0" "0" rfl rfl rfl rfl rfl rfl rfl

/-- Save behaviour of the ready-Sample dispatch: when both stored hashes
differ from the (present) report hashes, the backfill updates exactly the
two hash fields and issues exactly one save, and nothing later in the
dispatch saves the object again or mutates it; when both already match,
the object is untouched and never saved. -/
theorem run_process_sample_saves (env : Env) (cfg : Config) (r0 : Report)
    (s1 s2 : JVal)
    (h1 : getItemL r0 "sha1" = .ok s1)
    (h2 : getItemL r0 "sha256" = .ok s2)
    (ST : RunState) (hct : ST.obj.crits_type = .Sample) :
    (pyEq ST.obj.sha1 s1 = false → pyEq ST.obj.sha256 s2 = false →
      (finalState (run_process env cfg r0 ST)).objSaves = ST.objSaves + 1 ∧
      (finalState (run_process env cfg r0 ST)).obj =
        { ST.obj with sha1 := s1, sha256 := s2 }) ∧
    (pyEq ST.obj.sha1 s1 = true → pyEq ST.obj.sha256 s2 = true →
      (finalState (run_process env cfg r0 ST)).objSaves = ST.objSaves ∧
      (finalState (run_process env cfg r0 ST)).obj = ST.obj) := by
  constructor
  · intro d1 d2
    simp only [run_process, bind_app, getSt_app, resCase_ok, hct]
    rw [_process_hashes_both_differ r0 s1 s2 h1 h2 ST d1 d2]
    simp only [resCase_ok, bind_app]
    cases hps : _process_public_sample r0
        { ST with obj := { ST.obj with sha1 := s1, sha256 := s2 },
                  objSaves := ST.objSaves + 1 } with
    | ok resp st3 =>
      obtain ⟨_, _, ho, hob, _, _⟩ := frames_result (frames_public_sample r0) hps
      simp only [resCase_ok]
      obtain ⟨_, _, ho2, hob2, _, _⟩ :=
        frames_sample_post env cfg r0 resp st3
      constructor
      · rw [ho2, ho]
      · rw [hob2, hob]
        try simp [hct]
    | error e st3 =>
      obtain ⟨_, _, ho, hob, _, _⟩ := frames_result_err (frames_public_sample r0) hps
      simp only [resCase_err]
      constructor
      · simp only [finalState]; rw [ho]
      · simp only [finalState]; rw [hob]
        try simp [hct]
  · intro d1 d2
    simp only [run_process, bind_app, getSt_app, resCase_ok, hct]
    rw [_process_hashes_both_match r0 s1 s2 h1 h2 ST d1 d2]
    simp only [resCase_ok, bind_app]
    cases hps : _process_public_sample r0 ST with
    | ok resp st3 =>
      obtain ⟨_, _, ho, hob, _, _⟩ := frames_result (frames_public_sample r0) hps
      simp only [resCase_ok]
      obtain ⟨_, _, ho2, hob2, _, _⟩ :=
        frames_sample_post env cfg r0 resp st3
      constructor
      · rw [ho2, ho]
      · rw [hob2, hob]
        try simp [hct]
    | error e st3 =>
      obtain ⟨_, _, ho, hob, _, _⟩ := frames_result_err (frames_public_sample r0) hps
      simp only [resCase_err]
      constructor
      · simp only [finalState]; rw [ho]
      · simp only [finalState]; rw [hob]
        try simp [hct]

/-- C9: for every ready Sample run whose report carries sha1 and sha256,
if both stored hashes differ from the report values then the run issues
exactly one save (final save count 1, never more), the final object is
the original with ONLY the two hash fields replaced (every other field,
including the frame stand-in `otherFields`, is unchanged), and if both
hashes already match, no save occurs and the object is untouched. -/
theorem C9_theorem (key : String) (hk : key.isEmpty = false) (priv pcap : Bool)
    (upl : Option Bool) (w : Nat) (env : Env) (r0 : Report) (obj : CritsObj)
    (s1 s2 : JVal)
    (hty : obj.crits_type = .Sample)
    (h0 : env.fetchOracle 0 = some r0)
    (hrc : rget r0 "response_code" (.num 0) = .num 1)
    (h1 : getItemL r0 "sha1" = .ok s1)
    (h2 : getItemL r0 "sha256" = .ok s2) :
    (pyEq obj.sha1 s1 = false → pyEq obj.sha256 s2 = false →
      (finalState (run env (mkConfig key priv pcap upl w) (initState obj))).objSaves = 1 ∧
      (finalState (run env (mkConfig key priv pcap upl w) (initState obj))).obj =
        { obj with sha1 := s1, sha256 := s2 }) ∧
    (pyEq obj.sha1 s1 = true → pyEq obj.sha256 s2 = true →
      (finalState (run env (mkConfig key priv pcap upl w) (initState obj))).objSaves = 0 ∧
      (finalState (run env (mkConfig key priv pcap upl w) (initState obj))).obj = obj) := by
  rw [run_ready key hk priv pcap upl w env r0 obj h0 hrc]
  have h := run_process_sample_saves env (mkConfig key priv pcap upl w) r0 s1 s2 h1 h2
    ({ initState obj with fetchCount := 1 }) (by simp [initState, hty])
  constructor
  · intro d1 d2
    obtain ⟨hsv, hob⟩ := h.1 d1 d2
    exact ⟨hsv, hob⟩
  · intro d1 d2
    obtain ⟨hsv, hob⟩ := h.2 d1 d2
    exact ⟨hsv, hob⟩

/-- A Sample object whose stored hashes already match the C9 report. -/
def sampleObjMatch : CritsObj :=
  { sampleObj with sha1 := .str "s1", sha256 := .str "s2" }

/-- C9 witness: a concrete ready report with hashes s1/s2 run against an
object with differing hashes (one save, both fields updated, the rest of
the object untouched) and against an object already carrying them (no
save, object unchanged). -/
theorem C9_witness :
    ((finalState (run (mkEnv (fun _ => some [("response_code", .num 1),
            ("sha1", .str "s1"), ("sha256", .str "s2")]) [])
          (mkConfig "k" false false (some false) 5) (initState sampleObj))).objSaves = 1 ∧
      (finalState (run (mkEnv (fun _ => some [("response_code", .num 1),
            ("sha1", .str "s1"), ("sha256", .str "s2")]) [])
          (mkConfig "k" false false (some false) 5) (initState sampleObj))).obj =
        { sampleObj with sha1 := .str "s1", sha256 := .str "s2" }) ∧
    ((finalState (run (mkEnv (fun _ => some [("response_code", .num 1),
            ("sha1", .str "s1"), ("sha256", .str "s2")]) [])
          (mkConfig "k" false false (some false) 5) (initState sampleObjMatch))).objSaves = 0 ∧
      (finalState (run (mkEnv (fun _ => some [("response_code", .num 1),
            ("sha1", .str "s1"), ("sha256", .str "s2")]) [])
          (mkConfig "k" false false (some false) 5) (initState sampleObjMatch))).obj =
        sampleObjMatch) := by
  have hd := C9_theorem "k" rfl false false (some false) 5
    (mkEnv (fun _ => some [("response_code", .num 1), ("sha1", .str "s1"),
      ("sha256", .str "s2")]) [])
    [("response_code", .num 1), ("sha1", .str "s1"), ("sha256", .str "s2")]
    sampleObj (.str "s1") (.str "s2") rfl rfl rfl rfl rfl
  have hm := C9_theorem "k" rfl false false (some false) 5
    (mkEnv (fun _ => some [("response_code", .num 1), ("sha1", .str "s1"),
      ("sha256", .str "s2")]) [])
    [("response_code", .num 1), ("sha1", .str "s1"), ("sha256", .str "s2")]
    sampleObjMatch (.str "s1") (.str "s2") rfl rfl rfl rfl rfl
  exact ⟨hd.1 rfl rfl, hm.2 rfl rfl⟩

/-- Exact effect of the submission-names loop: one finding per name. -/
theorem subNamesLoop_eq (names : List JVal) (st : RunState) :
    subNamesLoop names st = .ok ()
      { st with results := st.results ++
          names.map (fun x => ⟨"VirusTotal Submission Names", x, .null⟩) } := by
  induction names generalizing st with
  | nil => simp [subNamesLoop]
  | cons x rest ih =>
    simp [subNamesLoop, _add_result, ih, List.append_assoc]

/-- Exact evaluation of `_process_private_sample_vtmetadata` on a report
with a truthy additional_info block, integer vote counts and an iterable
submission-names value: the timestamps finding, one finding per
submission name, then the reputation finding labelled
`malicious_votes / harmless_votes`. -/
theorem vtmetadata_eval (report : Report) (m hv : Int) (names : List JVal)
    (st : RunState)
    (hai : truthy (rget report "additional_info" (.obj [])) = true)
    (hmv : rget report "malicious_votes" (.num 0) = .num m)
    (hhv : rget report "harmless_votes" (.num 0) = .num hv)
    (hsn : pyIter (rget report "submission_names" (.arr [])) = .ok names) :
    _process_private_sample_vtmetadata report st =
      .ok ⟨true, "Processed private sample vtmetadata."⟩
        { st with results := st.results ++
            ⟨"VirusTotal Timestamps", rget report "scan_id" (.str ""),
              .obj [("First Seen", rget report "first_seen" (.str "")),
                    ("Last Seen", rget report "last_seen" (.str "")),
                    ("Times Submitted", rget report "times_submitted" (.str "")),
                    ("Unique Sources", rget report "unique_sources" (.str ""))]⟩ ::
            (names.map (fun x => ⟨"VirusTotal Submission Names", x, .null⟩) ++
             [⟨"VirusTotal Reputation", .str (toString m ++ " / " ++ toString hv),
               .obj [("Community Reputation", rget report "community_reputation" (.num 0)),
                     ("Harmless Votes", rget report "harmless_votes" (.num 0)),
                     ("Malicious Votes", rget report "malicious_votes" (.num 0))]⟩]) } := by
  simp [_process_private_sample_vtmetadata, hai, hmv, hhv, hsn, pyFmtD,
    _add_result, subNamesLoop_eq, List.append_assoc]

/-- C6 amended: the scan-summary (stats) label is exactly
`positives / total` with both defaulting to 0; the reputation finding
uses the same `"%d / %d"` two-number pattern but formats
`malicious_votes / harmless_votes` (both defaulting to 0), NOT
positives/total as the claim states. -/
theorem C6_theorem (report : Report) (p t m hv : Int) (names : List JVal)
    (st st2 : RunState)
    (hpn : rget report "positives" (.num 0) = .num p)
    (htn : rget report "total" (.num 0) = .num t)
    (hai : truthy (rget report "additional_info" (.obj [])) = true)
    (hmv : rget report "malicious_votes" (.num 0) = .num m)
    (hhv : rget report "harmless_votes" (.num 0) = .num hv)
    (hsn : pyIter (rget report "submission_names" (.arr [])) = .ok names) :
    (∃ l, (finalState (_process_public_sample report st)).results =
        st.results ++ ⟨"stats", .str (toString p ++ " / " ++ toString t),
          .obj [("scan_date", rget report "scan_date" (.str "")),
                ("positives", rget report "positives" (.num 0)),
                ("total", rget report "total" (.num 0))]⟩ ::
          ⟨"permalink", rget report "permalink" (.str "No link"), .null⟩ :: l) ∧
    _process_private_sample_vtmetadata report st2 =
      .ok ⟨true, "Processed private sample vtmetadata."⟩
        { st2 with results := st2.results ++
            ⟨"VirusTotal Timestamps", rget report "scan_id" (.str ""),
              .obj [("First Seen", rget report "first_seen" (.str "")),
                    ("Last Seen", rget report "last_seen" (.str "")),
                    ("Times Submitted", rget report "times_submitted" (.str "")),
                    ("Unique Sources", rget report "unique_sources" (.str ""))]⟩ ::
            (names.map (fun x => ⟨"VirusTotal Submission Names", x, .null⟩) ++
             [⟨"VirusTotal Reputation", .str (toString m ++ " / " ++ toString hv),
               .obj [("Community Reputation", rget report "community_reputation" (.num 0)),
                     ("Harmless Votes", rget report "harmless_votes" (.num 0)),
                     ("Malicious Votes", rget report "malicious_votes" (.num 0))]⟩]) } := by
  constructor
  · have hp : pyFmtD (rget report "positives" (.num 0)) = .ok (toString p) := by
      rw [hpn]; rfl
    have ht : pyFmtD (rget report "total" (.num 0)) = .ok (toString t) := by
      rw [htn]; rfl
    obtain ⟨l, hl, _, _, _, _, _⟩ := public_sample_stats report (toString p) (toString t) hp ht st
    exact ⟨l, hl⟩
  · exact vtmetadata_eval report m hv names st2 hai hmv hhv hsn

/-- The C6 report: positives 3, total 57, one malicious and two harmless
votes under a truthy additional_info block. -/
def c6report : Report :=
  [("response_code", .num 1), ("positives", .num 3), ("total", .num 57),
   ("additional_info", .obj [("x", .num 1)]),
   ("malicious_votes", .num 1), ("harmless_votes", .num 2)]

/-- C6 counterexample: on a report with positives 3 / total 57 and votes
1 / 2, the stats label is "3 / 57" but the VirusTotal Reputation label is
"1 / 2" - the positives/total formatting is NOT used for the reputation
finding, refuting the claim as stated. -/
theorem C6_counterexample :
    ((finalState (_process_public_sample c6report (initState sampleObj))).results.head?.map
      (fun f => pyStr f.label)) = some "3 / 57" ∧
    ((finalState (_process_private_sample_vtmetadata c6report
        (initState sampleObj))).results.getLast?.map (fun f => pyStr f.label)) =
      some "1 / 2" ∧
    ("1 / 2" : String) ≠ "3 / 57" := by
  refine ⟨rfl, rfl, by decide⟩

/-- C6 witness: the amended theorem at the C6 report. -/
theorem C6_witness :
    (∃ l, (finalState (_process_public_sample c6report (initState sampleObj))).results =
        ⟨"stats", .str "3 / 57",
          .obj [("scan_date", .str ""), ("positives", .num 3), ("total", .num 57)]⟩ ::
          ⟨"permalink", .str "No link", .null⟩ :: l) ∧
    _process_private_sample_vtmetadata c6report (initState sampleObj) =
      .ok ⟨true, "Processed private sample vtmetadata."⟩
        { initState sampleObj with results :=
            [⟨"VirusTotal Timestamps", .str "",
              .obj [("First Seen", .str ""), ("Last Seen", .str ""),
                    ("Times Submitted", .str ""), ("Unique Sources", .str "")]⟩,
             ⟨"VirusTotal Reputation", .str "1 / 2",
               .obj [("Community Reputation", .num 0), ("Harmless Votes", .num 2),
                     ("Malicious Votes", .num 1)]⟩] } := by
  have h := C6_theorem c6report 3 57 1 2 [] (initState sampleObj) (initState sampleObj)
    rfl rfl rfl rfl rfl rfl
  exact ⟨h.1, h.2⟩
